import Mathlib

/-!
Verification of the JSON extraction / normalization / sanitization core of the
ai-outfit-fitcheck repository (src/app.py and src/app1.py).

Python values produced by `json.loads` are modelled by the inductive type
`PyVal` (JSON universe: strings, numbers, booleans, null, arrays, objects).
Python dicts are modelled as insertion-ordered association lists
(`PyDict`), with `dget`/`dset` mirroring CPython semantics: lookup finds the
first matching key, assignment updates an existing key in place and otherwise
appends at the end.  Numeric literals are kept as their lexeme (their numeric
value is never inspected by the code under verification).

Fallible Python code (statements that can raise `KeyError`, `TypeError` or
`AttributeError`) is modelled with `Except PyErr`.
-/

/-- Model of the values Python's `json.loads` can produce. -/
inductive PyVal where
  | str : String → PyVal
  | num : String → PyVal
  | bool : Bool → PyVal
  | null : PyVal
  | list : List PyVal → PyVal
  | dict : List (String × PyVal) → PyVal
deriving Repr

/-- The Python exception kinds that the modelled code can raise. -/
inductive PyErr where
  | keyError : PyErr
  | typeError : PyErr
  | attributeError : PyErr
deriving Repr, DecidableEq

/-- A Python dict (string keys), as an insertion-ordered association list. -/
abbrev PyDict := List (String × PyVal)

/-- Dict lookup: value of the first entry with the given key (`d[k]` / `d.get(k)`). -/
def dget (d : PyDict) (k : String) : Option PyVal :=
  match d with
  | [] => none
  | (k', v) :: rest => if k' = k then some v else dget rest k

/-- Dict assignment `d[k] = v`: updates the first entry with key `k` in place,
or appends a new entry at the end, exactly as CPython dicts behave. -/
def dset (d : PyDict) (k : String) (v : PyVal) : PyDict :=
  match d with
  | [] => [(k, v)]
  | (k', v') :: rest => if k' = k then (k, v) :: rest else (k', v') :: dset rest k v

/-- ASCII lowercasing of a string, by characters; model of Python `str.lower()`
on the ASCII inputs relevant here. -/
def lowerStr (s : String) : String := String.mk (s.data.map Char.toLower)

/-- Whether `pat` occurs at the start of `cs`. -/
def leadEq : List Char → List Char → Bool
  | [], _ => true
  | _ :: _, [] => false
  | a :: as, b :: bs => a = b && leadEq as bs

/-- Whether `pat` occurs contiguously anywhere in `cs`; model of Python's
`pat in s` on strings. -/
def containsSeq (pat : List Char) : List Char → Bool
  | [] => pat.isEmpty
  | c :: rest => leadEq pat (c :: rest) || containsSeq pat rest

/-- Python `needle in hay` for strings. -/
def strIn (needle hay : String) : Bool := containsSeq needle.data hay.data

/-- Whitespace characters recognized by Python's argument-less `str.split()`
(ASCII part). -/
def isPySpace (c : Char) : Bool :=
  c = ' ' || c = '\t' || c = '\n' || c = '\r' || c = '\x0b' || c = '\x0c'

/-- Number of maximal nonempty non-whitespace runs in `cs`, i.e.
`len(s.split())` in Python.  The flag records whether the previous character
belonged to a word. -/
def numTokensAux : List Char → Bool → Nat
  | [], _ => 0
  | c :: cs, inWord =>
    if isPySpace c then numTokensAux cs false
    else (if inWord then 0 else 1) + numTokensAux cs true

/-- Python `len(s.split())`. -/
def numTokens (s : String) : Nat := numTokensAux s.data false

/-- Model of `is_sentence` (src/app.py lines 101-103):
`len(s.split()) >= 4`. -/
def is_sentence (s : String) : Bool := 4 ≤ numTokens s

/-- Python slicing `v[:n]`: defined on lists and strings, `TypeError`
otherwise. -/
def pySlice (v : PyVal) (n : Nat) : Except PyErr PyVal :=
  match v with
  | .list xs => .ok (.list (xs.take n))
  | .str s => .ok (.str (String.mk (s.data.take n)))
  | _ => .error .typeError

/-- Python `len(v)`: defined on lists, strings and dicts, `TypeError`
otherwise. -/
def pyLenE (v : PyVal) : Except PyErr Nat :=
  match v with
  | .list xs => .ok xs.length
  | .str s => .ok s.data.length
  | .dict kvs => .ok kvs.length
  | _ => .error .typeError

/-- Model of `while len(v) < n: v.append(filler)`: on a list, appends the
filler string until the target length is reached; on any other value the loop
body raises `AttributeError` (no `append`) as soon as it runs. -/
def padField (v : PyVal) (n : Nat) (filler : String) : Except PyErr PyVal :=
  match v with
  | .list xs => .ok (.list (xs ++ List.replicate (n - xs.length) (.str filler)))
  | _ =>
    match pyLenE v with
    | .error e => .error e
    | .ok len => if len < n then .error .attributeError else .ok v

/-- Truncation statement `r[sec] = r[sec][:n]` reading the key directly
(`KeyError` when absent). -/
def truncSection (sec : String) (n : Nat) (r : PyDict) : Except PyErr PyDict :=
  match dget r sec with
  | none => .error .keyError
  | some v =>
    match pySlice v n with
    | .error e => .error e
    | .ok v' => .ok (dset r sec v')

/-- Padding statement `while len(r[sec]) < n: r[sec].append(filler)` reading
the key directly (`KeyError` when absent). -/
def padSection (sec : String) (n : Nat) (filler : String) (r : PyDict) :
    Except PyErr PyDict :=
  match dget r sec with
  | none => .error .keyError
  | some v =>
    match padField v n filler with
    | .error e => .error e
    | .ok v' => .ok (dset r sec v')

/-- Filler sentences used by `normalize_output` (src/app1.py lines 128-135). -/
def fillerNormWW : String := "The outfit elements appear visually consistent."

/-- Filler for `what_needs_work` in both scripts. -/
def fillerNW : String := "No clearly visible fit issues are present."

/-- Filler for `suggestions` in both scripts. -/
def fillerSG : String := "No changes are required based on visible elements."

/-- Filler for `what_works` used by `sanitize_final` (src/app.py line 136). -/
def fillerSanWW : String := "Visible clothing items form a consistent appearance."

/-- Model of `normalize_output` (src/app1.py lines 123-137):
truncate the three list fields (defaulting to `[]` when absent), then pad each
up to its target length with a fixed filler sentence.  The dict is updated
statement by statement, in source order. -/
def normalize_output (data : PyDict) : Except PyErr PyDict :=
  match pySlice ((dget data "what_works").getD (.list [])) 3 with
  | .error e => .error e
  | .ok ws =>
    let d1 := dset data "what_works" ws
    match pySlice ((dget d1 "what_needs_work").getD (.list [])) 2 with
    | .error e => .error e
    | .ok nw =>
      let d2 := dset d1 "what_needs_work" nw
      match pySlice ((dget d2 "suggestions").getD (.list [])) 2 with
      | .error e => .error e
      | .ok sg =>
        let d3 := dset d2 "suggestions" sg
        match padSection "what_works" 3 fillerNormWW d3 with
        | .error e => .error e
        | .ok d4 =>
          match padSection "what_needs_work" 2 fillerNW d4 with
          | .error e => .error e
          | .ok d5 => padSection "suggestions" 2 fillerSG d5

/-- Model of the `item_flags` value coercion in `sanitize_final`
(src/app.py lines 110-113): any value other than the string `"visible"`
becomes `"not_detected"`. -/
def coerceFlag (v : PyVal) : PyVal :=
  match v with
  | .str s => .str (if s = "visible" then "visible" else "not_detected")
  | _ => .str "not_detected"

/-- Coerce every value of a flags dict, keys and order untouched. -/
def coerceFlags (fs : List (String × PyVal)) : List (String × PyVal) :=
  fs.map (fun kv => (kv.1, coerceFlag kv.2))

/-- Predicate of the not-detected filter (src/app.py line 121):
`field not in s.lower()`.  Note the field itself is not lowercased. -/
def keepNoMention (field : String) (s : String) : Bool :=
  !(strIn field (lowerStr s))

/-- Evaluation of the elements of a list comprehension over Python values:
every element must be a string, otherwise the comprehension's condition raises
`AttributeError` when it calls a string method on it. -/
def asStrs : List PyVal → Except PyErr (List String)
  | [] => .ok []
  | .str s :: rest =>
    match asStrs rest with
    | .ok ss => .ok (s :: ss)
    | .error e => .error e
  | _ :: _ => .error .attributeError

/-- Model of `[s for s in v if p s]` where `p` calls string methods on `s`:
on a list, all elements must be strings; iterating a string yields its
characters as one-character strings; any other value is not iterable
(`TypeError`). -/
def pyFilterStrs (v : PyVal) (p : String → Bool) : Except PyErr PyVal :=
  match v with
  | .list xs =>
    match asStrs xs with
    | .ok ss => .ok (.list ((ss.filter p).map .str))
    | .error e => .error e
  | .str s =>
    .ok (.list (((s.data.map Char.toString).filter p).map .str))
  | _ => .error .typeError

/-- One iteration of `for section in [...]: r[section] = [s for s in r[section] if p s]`. -/
def filterOneSection (sec : String) (p : String → Bool) (r : PyDict) :
    Except PyErr PyDict :=
  match dget r sec with
  | none => .error .keyError
  | some v =>
    match pyFilterStrs v p with
    | .error e => .error e
    | .ok v' => .ok (dset r sec v')

/-- The comprehension applied to the three list fields in source order
(src/app.py lines 118-122 and 125-126). -/
def filterSectionsBy (p : String → Bool) (r : PyDict) : Except PyErr PyDict :=
  match filterOneSection "what_works" p r with
  | .error e => .error e
  | .ok r1 =>
    match filterOneSection "what_needs_work" p r1 with
    | .error e => .error e
    | .ok r2 => filterOneSection "suggestions" p r2

/-- Model of the loop `for field, status in result["item_flags"].items():`
(src/app.py lines 116-122), iterating over the coerced flag entries and, for
every entry whose status is the string `"not_detected"`, removing from the
three list fields every entry mentioning the field. -/
def applyNdFilters : List (String × PyVal) → PyDict → Except PyErr PyDict
  | [], r => .ok r
  | (k, v) :: rest, r =>
    match v with
    | .str s =>
      if s = "not_detected" then
        match filterSectionsBy (keepNoMention k) r with
        | .error e => .error e
        | .ok r' => applyNdFilters rest r'
      else applyNdFilters rest r
    | _ => applyNdFilters rest r

/-- Model of `sanitize_final` (src/app.py lines 106-149): coerce the flag
values, remove entries mentioning not-detected items, remove non-sentences,
truncate each list field to its target length, then pad with fillers.
Reading `result["item_flags"]` raises `KeyError` when the key is absent; a
non-dict value there makes the two flag loops raise (the exact exception kind
depends on the value, collapsed here to `TypeError`). -/
def sanitize_final (result : PyDict) : Except PyErr PyDict :=
  match dget result "item_flags" with
  | none => .error .keyError
  | some (.dict fs) =>
    let fs1 := coerceFlags fs
    let r1 := dset result "item_flags" (.dict fs1)
    match applyNdFilters fs1 r1 with
    | .error e => .error e
    | .ok r2 =>
      match filterSectionsBy is_sentence r2 with
      | .error e => .error e
      | .ok r3 =>
        match truncSection "what_works" 3 r3 with
        | .error e => .error e
        | .ok r4 =>
          match truncSection "what_needs_work" 2 r4 with
          | .error e => .error e
          | .ok r5 =>
            match truncSection "suggestions" 2 r5 with
            | .error e => .error e
            | .ok r6 =>
              match padSection "what_works" 3 fillerSanWW r6 with
              | .error e => .error e
              | .ok r7 =>
                match padSection "what_needs_work" 2 fillerNW r7 with
                | .error e => .error e
                | .ok r8 => padSection "suggestions" 2 fillerSG r8
  | some _ => .error .typeError

/-- JSON whitespace (RFC 8259 / Python `json`). -/
def isJsonWs (c : Char) : Bool :=
  c = ' ' || c = '\t' || c = '\n' || c = '\r'

/-- Drop leading JSON whitespace. -/
def skipWs : List Char → List Char
  | [] => []
  | c :: cs => if isJsonWs c then skipWs cs else c :: cs

/-- Value of a hexadecimal digit, if any. -/
def hexDigit? (c : Char) : Option Nat :=
  if '0' ≤ c ∧ c ≤ '9' then some (c.toNat - '0'.toNat)
  else if 'a' ≤ c ∧ c ≤ 'f' then some (c.toNat - 'a'.toNat + 10)
  else if 'A' ≤ c ∧ c ≤ 'F' then some (c.toNat - 'A'.toNat + 10)
  else none

/-- Parse the body of a JSON string after the opening quote, returning the
decoded characters and the input after the closing quote.  Unescaped control
characters are rejected, like Python's strict default. -/
def parseStrChars : List Char → Option (List Char × List Char)
  | [] => none
  | '"' :: rest => some ([], rest)
  | '\\' :: '"' :: rest => (parseStrChars rest).map (fun p => ('"' :: p.1, p.2))
  | '\\' :: '\\' :: rest => (parseStrChars rest).map (fun p => ('\\' :: p.1, p.2))
  | '\\' :: '/' :: rest => (parseStrChars rest).map (fun p => ('/' :: p.1, p.2))
  | '\\' :: 'b' :: rest => (parseStrChars rest).map (fun p => ('\x08' :: p.1, p.2))
  | '\\' :: 'f' :: rest => (parseStrChars rest).map (fun p => ('\x0c' :: p.1, p.2))
  | '\\' :: 'n' :: rest => (parseStrChars rest).map (fun p => ('\n' :: p.1, p.2))
  | '\\' :: 'r' :: rest => (parseStrChars rest).map (fun p => ('\r' :: p.1, p.2))
  | '\\' :: 't' :: rest => (parseStrChars rest).map (fun p => ('\t' :: p.1, p.2))
  | '\\' :: 'u' :: a :: b :: c :: d :: rest =>
    match hexDigit? a, hexDigit? b, hexDigit? c, hexDigit? d with
    | some ha, some hb, some hc, some hd =>
      (parseStrChars rest).map
        (fun p => (Char.ofNat (((ha * 16 + hb) * 16 + hc) * 16 + hd) :: p.1, p.2))
    | _, _, _, _ => none
  | '\\' :: _ => none
  | c :: rest =>
    if c.toNat < 32 then none
    else (parseStrChars rest).map (fun p => (c :: p.1, p.2))

/-- Longest run of decimal digits at the head of the input. -/
def spanDigits : List Char → List Char × List Char
  | [] => ([], [])
  | c :: rest =>
    if c.isDigit then
      let p := spanDigits rest
      (c :: p.1, p.2)
    else ([], c :: rest)

/-- Integer part of a JSON number (after an optional minus sign). -/
def parseIntPart : List Char → Option (List Char × List Char)
  | [] => none
  | '0' :: rest => some (['0'], rest)
  | c :: rest =>
    if c.isDigit then
      let p := spanDigits rest
      some (c :: p.1, p.2)
    else none

/-- Optional fractional part of a JSON number. -/
def parseFracPart : List Char → Option (List Char × List Char)
  | '.' :: rest =>
    match spanDigits rest with
    | ([], _) => none
    | (ds, r) => some ('.' :: ds, r)
  | cs => some ([], cs)

/-- Optional exponent part of a JSON number. -/
def parseExpPart : List Char → Option (List Char × List Char)
  | 'e' :: '+' :: rest =>
    match spanDigits rest with
    | ([], _) => none
    | (ds, r) => some ('e' :: '+' :: ds, r)
  | 'e' :: '-' :: rest =>
    match spanDigits rest with
    | ([], _) => none
    | (ds, r) => some ('e' :: '-' :: ds, r)
  | 'e' :: rest =>
    match spanDigits rest with
    | ([], _) => none
    | (ds, r) => some ('e' :: ds, r)
  | 'E' :: '+' :: rest =>
    match spanDigits rest with
    | ([], _) => none
    | (ds, r) => some ('E' :: '+' :: ds, r)
  | 'E' :: '-' :: rest =>
    match spanDigits rest with
    | ([], _) => none
    | (ds, r) => some ('E' :: '-' :: ds, r)
  | 'E' :: rest =>
    match spanDigits rest with
    | ([], _) => none
    | (ds, r) => some ('E' :: ds, r)
  | cs => some ([], cs)

/-- A JSON number without its sign. -/
def parseNumTail (cs : List Char) : Option (List Char × List Char) :=
  match parseIntPart cs with
  | none => none
  | some (ip, r1) =>
    match parseFracPart r1 with
    | none => none
    | some (fp, r2) =>
      match parseExpPart r2 with
      | none => none
      | some (ep, r3) => some (ip ++ fp ++ ep, r3)

/-- A JSON number with an optional minus sign, returned as its lexeme. -/
def parseNumChars (cs : List Char) : Option (List Char × List Char) :=
  match cs with
  | '-' :: rest => (parseNumTail rest).map (fun p => ('-' :: p.1, p.2))
  | _ => parseNumTail cs

/-- Rebuild a dict from parsed members with CPython duplicate-key semantics:
position of the first occurrence, value of the last. -/
def dedupKeys (kvs : List (String × PyVal)) : PyDict :=
  kvs.foldl (fun d kv => dset d kv.1 kv.2) []

mutual

/-- Fuel-indexed recursive-descent JSON value parser, modelling the grammar
accepted by Python's `json.loads` (including its `NaN`/`Infinity` extras). -/
def parseVal : Nat → List Char → Option (PyVal × List Char)
  | 0, _ => none
  | fuel + 1, cs =>
    match cs with
    | '\x7b' :: rest =>
      match parseObjBody fuel (skipWs rest) with
      | some (kvs, r) => some (.dict (dedupKeys kvs), r)
      | none => none
    | '[' :: rest =>
      match parseArrBody fuel (skipWs rest) with
      | some (vs, r) => some (.list vs, r)
      | none => none
    | '"' :: rest =>
      match parseStrChars rest with
      | some (b, r) => some (.str (String.mk b), r)
      | none => none
    | 't' :: 'r' :: 'u' :: 'e' :: r => some (.bool true, r)
    | 'f' :: 'a' :: 'l' :: 's' :: 'e' :: r => some (.bool false, r)
    | 'n' :: 'u' :: 'l' :: 'l' :: r => some (.null, r)
    | 'N' :: 'a' :: 'N' :: r => some (.num "NaN", r)
    | 'I' :: 'n' :: 'f' :: 'i' :: 'n' :: 'i' :: 't' :: 'y' :: r =>
      some (.num "Infinity", r)
    | '-' :: 'I' :: 'n' :: 'f' :: 'i' :: 'n' :: 'i' :: 't' :: 'y' :: r =>
      some (.num "-Infinity", r)
    | _ =>
      match parseNumChars cs with
      | some (lex, r) => some (.num (String.mk lex), r)
      | none => none

/-- Object body, positioned after `HEX(7B)` with whitespace skipped. -/
def parseObjBody : Nat → List Char → Option (List (String × PyVal) × List Char)
  | 0, _ => none
  | fuel + 1, cs =>
    match cs with
    | '\x7d' :: r => some ([], r)
    | _ => parseMembers fuel cs

/-- One or more `"key": value` members separated by commas. -/
def parseMembers : Nat → List Char → Option (List (String × PyVal) × List Char)
  | 0, _ => none
  | fuel + 1, cs =>
    match cs with
    | '"' :: rest =>
      match parseStrChars rest with
      | none => none
      | some (k, r1) =>
        match skipWs r1 with
        | ':' :: r2 =>
          match parseVal fuel (skipWs r2) with
          | none => none
          | some (v, r3) =>
            match skipWs r3 with
            | ',' :: r4 =>
              match parseMembers fuel (skipWs r4) with
              | some (kvs, r5) => some ((String.mk k, v) :: kvs, r5)
              | none => none
            | '\x7d' :: r4 => some ([(String.mk k, v)], r4)
            | _ => none
        | _ => none
    | _ => none

/-- Array body, positioned after `[` with whitespace skipped. -/
def parseArrBody : Nat → List Char → Option (List PyVal × List Char)
  | 0, _ => none
  | fuel + 1, cs =>
    match cs with
    | ']' :: r => some ([], r)
    | _ => parseElems fuel cs

/-- One or more array elements separated by commas. -/
def parseElems : Nat → List Char → Option (List PyVal × List Char)
  | 0, _ => none
  | fuel + 1, cs =>
    match parseVal fuel cs with
    | none => none
    | some (v, r1) =>
      match skipWs r1 with
      | ',' :: r2 =>
        match parseElems fuel (skipWs r2) with
        | some (vs, r3) => some (v :: vs, r3)
        | none => none
      | ']' :: r2 => some ([v], r2)
      | _ => none

end

/-- Model of the external `json.loads`, with any raised `ValueError` collapsed
to `none` (every caller in the sources wraps the call in `try/except`).
The fuel bound exceeds the number of parser steps possible on the input. -/
def json_loads (s : String) : Option PyVal :=
  match parseVal (4 * s.data.length + 8) (skipWs s.data) with
  | some (v, rest) => if skipWs rest = [] then some v else none
  | none => none

/-- Four lowercase hex digits of `n` (for `n < 65536`). -/
def hex4 (n : Nat) : List Char :=
  let dig := fun (m : Nat) =>
    if m < 10 then Char.ofNat ('0'.toNat + m) else Char.ofNat ('a'.toNat + m - 10)
  [dig (n / 4096 % 16), dig (n / 256 % 16), dig (n / 16 % 16), dig (n % 16)]

/-- Escape one character the way `json.dumps` does with its default
`ensure_ascii=True`: quote, backslash and the short control escapes, `HEX`
escapes for other control characters and all non-ASCII characters (as a
surrogate pair above the BMP). -/
def escChar (c : Char) : List Char :=
  if c = '"' then ['\\', '"']
  else if c = '\\' then ['\\', '\\']
  else if c = '\n' then ['\\', 'n']
  else if c = '\r' then ['\\', 'r']
  else if c = '\t' then ['\\', 't']
  else if c = '\x08' then ['\\', 'b']
  else if c = '\x0c' then ['\\', 'f']
  else if c.toNat < 32 || 128 ≤ c.toNat then
    if c.toNat < 65536 then '\\' :: 'u' :: hex4 c.toNat
    else
      let n := c.toNat - 65536
      ('\\' :: 'u' :: hex4 (55296 + n / 1024)) ++ ('\\' :: 'u' :: hex4 (56320 + n % 1024))
  else [c]

/-- JSON string escaping for `json_dumps`. -/
def escStr (s : String) : String := String.mk (s.data.flatMap escChar)

mutual

/-- Model of the external `json.dumps` with CPython's default separators
`", "` and `": "`.  Numeric values are printed as their stored lexeme. -/
def json_dumps : PyVal → String
  | .str s => "\"" ++ escStr s ++ "\""
  | .num lex => lex
  | .bool true => "true"
  | .bool false => "false"
  | .null => "null"
  | .list xs => "[" ++ dumpsElems xs ++ "]"
  | .dict kvs => "\x7b" ++ dumpsMembers kvs ++ "\x7d"

/-- Comma-separated dump of array elements. -/
def dumpsElems : List PyVal → String
  | [] => ""
  | [v] => json_dumps v
  | v :: rest => json_dumps v ++ ", " ++ dumpsElems rest

/-- Comma-separated dump of object members. -/
def dumpsMembers : List (String × PyVal) → String
  | [] => ""
  | [kv] => "\"" ++ escStr kv.1 ++ "\": " ++ json_dumps kv.2
  | kv :: rest => "\"" ++ escStr kv.1 ++ "\": " ++ json_dumps kv.2 ++ ", " ++ dumpsMembers rest

end

/-- Index of the first occurrence of `c`, i.e. Python `s.find(c)` with `none`
for `-1`. -/
def firstIdxOf (c : Char) : List Char → Option Nat
  | [] => none
  | x :: xs => if x = c then some 0 else (firstIdxOf c xs).map (· + 1)

/-- Index of the last occurrence of `c`, i.e. Python `s.rfind(c)` with `none`
for `-1`. -/
def lastIdxOf (c : Char) (cs : List Char) : Option Nat :=
  (firstIdxOf c cs.reverse).map (fun r => cs.length - 1 - r)

/-- Model of `extract_json_loose` (src/app.py lines 89-98): take the substring
from the first `HEX(7B)` through the last `HEX(7D)` inclusive and try to parse it;
`none` when either brace is missing or parsing fails. -/
def extract_json_loose (text : String) : Option PyVal :=
  match firstIdxOf '\x7b' text.data, lastIdxOf '\x7d' text.data with
  | some s, some e => json_loads (String.mk ((text.data.drop s).take (e + 1 - s)))
  | _, _ => none

/-- Model of `extract_json` (src/app1.py lines 112-120): same as
`extract_json_loose` except that a missing closing brace is not tested
explicitly; the slice `text[start:0]` is empty then and parsing it fails. -/
def extract_json (text : String) : Option PyVal :=
  match firstIdxOf '\x7b' text.data with
  | none => none
  | some s =>
    let e : Nat :=
      match lastIdxOf '\x7d' text.data with
      | some e => e + 1
      | none => 0
    json_loads (String.mk ((text.data.drop s).take (e - s)))

/-- The substring of `text` from the first `HEX(7B)` through the last `HEX(7D)`
inclusive, as the spec describes it (empty when the braces are missing or
cross). -/
def spanOf (text : String) : String :=
  match firstIdxOf '\x7b' text.data, lastIdxOf '\x7d' text.data with
  | some s, some e => String.mk ((text.data.drop s).take (e + 1 - s))
  | _, _ => ""

/-- Python truthiness of a `PyVal`: empty containers, empty strings, `false`,
`null` and numeric zero are falsy.  A numeric literal denotes zero exactly
when it has no nonzero digit. -/
def pyTruthy (v : PyVal) : Bool :=
  match v with
  | .str s => !s.data.isEmpty
  | .num lex => lex.data.any (fun c => '1' ≤ c && c ≤ '9')
  | .bool b => b
  | .null => false
  | .list xs => !xs.isEmpty
  | .dict kvs => !kvs.isEmpty

/-- Calling `sanitize_final` on an arbitrary extracted value: the source
passes the parsed object straight in, and subscripting a non-dict with a
string key raises `TypeError`. -/
def sanitize_final_v (v : PyVal) : Except PyErr PyDict :=
  match v with
  | .dict kvs => sanitize_final kvs
  | _ => .error .typeError

/-- Outcome of one run of the module-level pipeline: either the request is
aborted with the raw stage-2 text surfaced to the caller, or `sanitize_final`
runs on the extracted object. -/
inductive FitcheckResult where
  | aborted : String → FitcheckResult
  | finished : Except PyErr PyDict → FitcheckResult
deriving Repr

/-- Model of the report-relevant part of the module-level pipeline of
src/app.py (lines 185-212), as a function of the two Model Gateway response
texts.  Returns the stage-2 input string (`text_input`) and the outcome.
`if vision_json:` and `if not final_json:` test Python truthiness, so an
extracted empty object behaves like a failed extraction. -/
def run_fitcheck (vision_raw final_raw : String) : String × FitcheckResult :=
  let vision_json := extract_json_loose vision_raw
  let text_input :=
    match vision_json with
    | some v => if pyTruthy v then json_dumps v else vision_raw
    | none => vision_raw
  let outcome :=
    match extract_json_loose final_raw with
    | some v => if pyTruthy v then .finished (sanitize_final_v v) else .aborted final_raw
    | none => FitcheckResult.aborted final_raw
  (text_input, outcome)

/-- The fixed `item_flags` key set of the OutfitReport schema. -/
def sixKeys : List String := ["dress", "top", "bottom", "shoes", "bag", "accessories"]

/-- The three list fields of the OutfitReport schema. -/
def listFields : List String := ["what_works", "what_needs_work", "suggestions"]

/-- The field, when present, is bound to a list (the Normalizer's input domain:
a list field may be absent or a list of any length). -/
def listShaped (d : PyDict) (f : String) : Prop :=
  dget d f = none ∨ ∃ xs, dget d f = some (.list xs)

/-- The field is present and bound to a list of strings (the Sanitizer's input
domain). -/
def strListShaped (d : PyDict) (f : String) (ss : List String) : Prop :=
  dget d f = some (.list (ss.map .str))

/-- Whether a flag value is exactly the string `"visible"` (the only value the
coercion keeps). -/
def isVisible (v : PyVal) : Bool :=
  match v with
  | .str s => s = "visible"
  | _ => false

/-- Whether a flag entry's value is literally the string `"not_detected"`
(the status the filtering loop of `sanitize_final` reacts to). -/
def isNdStr (v : PyVal) : Bool :=
  match v with
  | .str s => s = "not_detected"
  | _ => false

/-- Keys of the entries of a flags list whose value is the literal string
`"not_detected"`, in iteration order. -/
def ndOf (flags : List (String × PyVal)) : List String :=
  (flags.filter (fun kv => isNdStr kv.2)).map Prod.fst

/-- Keys of the coerced flags dict whose status is `"not_detected"`, in
iteration order. -/
def ndKeys (fs : List (String × PyVal)) : List String :=
  ndOf (coerceFlags fs)

/-- An entry survives the not-detected filters for all the given keys. -/
def keepAll (ks : List String) (s : String) : Bool :=
  ks.all (fun k => keepNoMention k s)

/-- List-level normal form of what `sanitize_final` does to one list field:
filter by the not-detected keys, filter by the sentence test, truncate to the
target length, then pad with the filler. -/
def sanList (fs : List (String × PyVal)) (n : Nat) (filler : String)
    (l : List String) : List String :=
  let t := ((l.filter (keepAll (ndKeys fs))).filter is_sentence).take n
  t ++ List.replicate (n - t.length) filler

/-- Write the three list fields of a dict (as string lists), innermost first,
in the order the source writes them. -/
def setSections (r : PyDict) (a b c : List String) : PyDict :=
  dset (dset (dset r "what_works" (.list (a.map .str)))
      "what_needs_work" (.list (b.map .str)))
    "suggestions" (.list (c.map .str))

/-- Dict-level normal form of `sanitize_final` on a well-shaped report. -/
def sanitizeModel (r : PyDict) (fs : List (String × PyVal))
    (ws nw sg : List String) : PyDict :=
  setSections (dset r "item_flags" (.dict (coerceFlags fs)))
    (sanList fs 3 fillerSanWW ws) (sanList fs 2 fillerNW nw) (sanList fs 2 fillerSG sg)

/-- The entries of a list field of a report (empty for a missing or non-list
field). -/
def entriesOf (r : PyDict) (sec : String) : List PyVal :=
  match dget r sec with
  | some (.list xs) => xs
  | _ => []

/-- `needle` occurs in `hay` ignoring case. -/
def containsCI (needle hay : String) : Bool := strIn (lowerStr needle) (lowerStr hay)

/-- Concrete report used to exercise the Normalizer: over-long list fields. -/
def exNormIn : PyDict :=
  [("overall_vibe", .dict [("summary", .str "casual"), ("category", .str "streetwear")]),
   ("what_works", .list [.str "w one", .str "w two", .str "w three", .str "w four", .str "w five"]),
   ("what_needs_work", .list [.str "n one", .str "n two", .str "n three", .str "n four"]),
   ("suggestions", .list [.str "s one", .str "s two", .str "s three"]),
   ("item_flags", .dict [("top", .str "visible")])]

/-- Concrete report used to exercise the Sanitizer: `shoes` not detected and
mentioned by several entries. -/
def exSanIn : PyDict :=
  [("overall_vibe", .dict [("summary", .str "casual"), ("category", .str "street")]),
   ("what_works", .list [.str "The Shoes match the jacket well",
                         .str "The blue top fits quite well",
                         .str "short"]),
   ("what_needs_work", .list [.str "The shoes look slightly worn out"]),
   ("suggestions", .list [.str "Try brighter shoes with this outfit",
                          .str "Roll the sleeves up a little more"]),
   ("item_flags", .dict [("dress", .str "not_detected"), ("top", .str "visible"),
                         ("bottom", .str "maybe"), ("shoes", .str "no"),
                         ("bag", .str "not_detected"), ("accessories", .str "not_detected")])]

/-- Concrete report whose `item_flags` lacks five of the six schema keys. -/
def exMissingFlags : PyDict :=
  [("item_flags", .dict [("top", .str "visible")]),
   ("what_works", .list []), ("what_needs_work", .list []), ("suggestions", .list [])]

/-- Concrete report with `item_flags` present but `overall_vibe` absent. -/
def exNoVibe : PyDict :=
  [("item_flags", .dict [("top", .str "visible")]),
   ("what_works", .list [.str "The blue top fits quite well"]),
   ("what_needs_work", .list []), ("suggestions", .list [])]

/-- List-level normal form of what `normalize_output` does to one list field:
truncate to the target length, then pad with the filler. -/
def normListP (n : Nat) (filler : String) (xs : List PyVal) : List PyVal :=
  xs.take n ++ List.replicate (n - (xs.take n).length) (.str filler)

/-- Dict-level normal form of `normalize_output` on a well-shaped report. -/
def normModel (d : PyDict) (ws nw sg : List PyVal) : PyDict :=
  dset (dset (dset d "what_works" (.list (normListP 3 fillerNormWW ws)))
      "what_needs_work" (.list (normListP 2 fillerNW nw)))
    "suggestions" (.list (normListP 2 fillerSG sg))

/-- All entries of the three list fields of a report, concatenated. -/
def allListEntries (r : PyDict) : List PyVal :=
  entriesOf r "what_works" ++ entriesOf r "what_needs_work" ++ entriesOf r "suggestions"

/-- Concrete report with only `what_works` over-length: `what_needs_work` is
short and `suggestions` is entirely absent. -/
def exNormMixed : PyDict :=
  [("what_works", .list [.str "w one", .str "w two", .str "w three", .str "w four", .str "w five"]),
   ("what_needs_work", .list [.str "n one"])]

/-! ### Association-list dict lemmas -/

theorem dget_dset_self {d : PyDict} {k : String} {v : PyVal}
    (h : dget d k = some v) : dset d k v = d := by
  induction d with
  | nil => simp [dget] at h
  | cons kv rest ih =>
    obtain ⟨k', v'⟩ := kv
    by_cases hk : k' = k
    · subst hk
      simp [dget] at h
      simp [dset, h]
    · simp [dget, hk] at h
      simp [dset, hk, ih h]

theorem dget_dset {d : PyDict} {k : String} {v : PyVal} :
    dget (dset d k v) k = some v := by
  induction d with
  | nil => simp [dget, dset]
  | cons kv rest ih =>
    obtain ⟨k', v'⟩ := kv
    by_cases hk : k' = k
    · subst hk
      simp [dget, dset]
    · simp [dset, hk, dget, ih]

theorem dget_dset_ne {d : PyDict} {k' k : String} {v : PyVal}
    (h : k' ≠ k) : dget (dset d k' v) k = dget d k := by
  induction d with
  | nil => simp [dget, dset, h]
  | cons kv rest ih =>
    obtain ⟨ka, va⟩ := kv
    by_cases hk : ka = k'
    · subst hk
      simp [dset, dget, h]
    · simp [dset, hk, dget, ih]

theorem dset_dset_same {d : PyDict} {k : String} {a b : PyVal} :
    dset (dset d k a) k b = dset d k b := by
  induction d with
  | nil => simp [dset]
  | cons kv rest ih =>
    obtain ⟨k', v'⟩ := kv
    by_cases hk : k' = k
    · subst hk
      simp [dset]
    · simp [dset, hk, ih]

theorem dset_comm {d : PyDict} {k1 k2 : String} {a b : PyVal}
    (hne : k1 ≠ k2) {w : PyVal} (hmem : dget d k1 = some w) :
    dset (dset d k1 a) k2 b = dset (dset d k2 b) k1 a := by
  induction d with
  | nil => simp [dget] at hmem
  | cons kv rest ih =>
    obtain ⟨k', v'⟩ := kv
    by_cases h1 : k' = k1
    · subst h1
      have h2 : k' ≠ k2 := hne
      simp [dset, h2, hne]
    · by_cases h2 : k' = k2
      · subst h2
        simp [dset, h1]
      · simp [dget, h1] at hmem
        simp [dset, h1, h2, ih hmem]


/-! ### Reduction lemmas for the Normalizer -/

theorem truncSection_list {r : PyDict} {sec : String} {n : Nat} {xs : List PyVal}
    (h : dget r sec = some (.list xs)) :
    truncSection sec n r = .ok (dset r sec (.list (xs.take n))) := by
  simp [truncSection, pySlice, h]

theorem padSection_list {r : PyDict} {sec : String} {n : Nat} {filler : String}
    {xs : List PyVal} (h : dget r sec = some (.list xs)) :
    padSection sec n filler r =
      .ok (dset r sec (.list (xs ++ List.replicate (n - xs.length) (.str filler)))) := by
  simp [padSection, padField, h]


theorem dset_pad_collapse {d : PyDict} {kA kB : String} {a a' b : PyVal}
    (h : kA ≠ kB) :
    dset (dset (dset d kA a) kB b) kA a' = dset (dset d kA a') kB b := by
  rw [← dset_comm h (dget_dset (d := d) (k := kA) (v := a)), dset_dset_same]

theorem dset_pad_collapse2 {d : PyDict} {kA kB kC : String} {a b c a' : PyVal}
    (hAB : kA ≠ kB) (hAC : kA ≠ kC) :
    dset (dset (dset (dset d kA a) kB b) kC c) kA a' =
      dset (dset (dset d kA a') kB b) kC c := by
  have hmem : dget (dset (dset d kA a) kB b) kA = some a := by
    rw [dget_dset_ne hAB.symm, dget_dset]
  rw [← dset_comm hAC hmem, dset_pad_collapse hAB]

theorem normalize_output_spec {d : PyDict} {ws nw sg : List PyVal}
    (hw : (dget d "what_works").getD (.list []) = .list ws)
    (hn : (dget d "what_needs_work").getD (.list []) = .list nw)
    (hs : (dget d "suggestions").getD (.list []) = .list sg) :
    normalize_output d = .ok (normModel d ws nw sg) := by
  have hwn : ("what_works" : String) ≠ "what_needs_work" := by decide
  have hws : ("what_works" : String) ≠ "suggestions" := by decide
  have hns : ("what_needs_work" : String) ≠ "suggestions" := by decide
  have e1 : dget (dset d "what_works" (PyVal.list (ws.take 3))) "what_needs_work"
      = dget d "what_needs_work" := dget_dset_ne hwn
  have e2 : dget (dset (dset d "what_works" (PyVal.list (ws.take 3)))
        "what_needs_work" (PyVal.list (nw.take 2))) "suggestions"
      = dget d "suggestions" := by
    rw [dget_dset_ne hns, dget_dset_ne hws]
  have g1 : dget (dset (dset (dset d "what_works" (PyVal.list (ws.take 3)))
        "what_needs_work" (PyVal.list (nw.take 2))) "suggestions" (PyVal.list (sg.take 2)))
        "what_works" = some (PyVal.list (ws.take 3)) := by
    rw [dget_dset_ne hws.symm, dget_dset_ne hwn.symm, dget_dset]
  have hpad1 : padSection "what_works" 3 fillerNormWW
        (dset (dset (dset d "what_works" (PyVal.list (ws.take 3)))
          "what_needs_work" (PyVal.list (nw.take 2))) "suggestions" (PyVal.list (sg.take 2)))
      = .ok (dset (dset (dset (dset d "what_works" (PyVal.list (ws.take 3)))
          "what_needs_work" (PyVal.list (nw.take 2))) "suggestions" (PyVal.list (sg.take 2)))
          "what_works" (PyVal.list (normListP 3 fillerNormWW ws))) :=
    padSection_list g1
  have g2 : dget (dset (dset (dset (dset d "what_works" (PyVal.list (ws.take 3)))
        "what_needs_work" (PyVal.list (nw.take 2))) "suggestions" (PyVal.list (sg.take 2)))
        "what_works" (PyVal.list (normListP 3 fillerNormWW ws))) "what_needs_work"
      = some (PyVal.list (nw.take 2)) := by
    rw [dget_dset_ne hwn, dget_dset_ne hns.symm, dget_dset]
  have hpad2 : padSection "what_needs_work" 2 fillerNW
        (dset (dset (dset (dset d "what_works" (PyVal.list (ws.take 3)))
          "what_needs_work" (PyVal.list (nw.take 2))) "suggestions" (PyVal.list (sg.take 2)))
          "what_works" (PyVal.list (normListP 3 fillerNormWW ws)))
      = .ok (dset (dset (dset (dset (dset d "what_works" (PyVal.list (ws.take 3)))
          "what_needs_work" (PyVal.list (nw.take 2))) "suggestions" (PyVal.list (sg.take 2)))
          "what_works" (PyVal.list (normListP 3 fillerNormWW ws)))
          "what_needs_work" (PyVal.list (normListP 2 fillerNW nw))) :=
    padSection_list g2
  have g3 : dget (dset (dset (dset (dset (dset d "what_works" (PyVal.list (ws.take 3)))
        "what_needs_work" (PyVal.list (nw.take 2))) "suggestions" (PyVal.list (sg.take 2)))
        "what_works" (PyVal.list (normListP 3 fillerNormWW ws)))
        "what_needs_work" (PyVal.list (normListP 2 fillerNW nw))) "suggestions"
      = some (PyVal.list (sg.take 2)) := by
    rw [dget_dset_ne hns, dget_dset_ne hws, dget_dset]
  have hpad3 : padSection "suggestions" 2 fillerSG
        (dset (dset (dset (dset (dset d "what_works" (PyVal.list (ws.take 3)))
          "what_needs_work" (PyVal.list (nw.take 2))) "suggestions" (PyVal.list (sg.take 2)))
          "what_works" (PyVal.list (normListP 3 fillerNormWW ws)))
          "what_needs_work" (PyVal.list (normListP 2 fillerNW nw)))
      = .ok (dset (dset (dset (dset (dset (dset d "what_works" (PyVal.list (ws.take 3)))
          "what_needs_work" (PyVal.list (nw.take 2))) "suggestions" (PyVal.list (sg.take 2)))
          "what_works" (PyVal.list (normListP 3 fillerNormWW ws)))
          "what_needs_work" (PyVal.list (normListP 2 fillerNW nw)))
          "suggestions" (PyVal.list (normListP 2 fillerSG sg))) :=
    padSection_list g3
  have hcomp : normalize_output d
      = .ok (dset (dset (dset (dset (dset (dset d "what_works" (PyVal.list (ws.take 3)))
          "what_needs_work" (PyVal.list (nw.take 2))) "suggestions" (PyVal.list (sg.take 2)))
          "what_works" (PyVal.list (normListP 3 fillerNormWW ws)))
          "what_needs_work" (PyVal.list (normListP 2 fillerNW nw)))
          "suggestions" (PyVal.list (normListP 2 fillerSG sg))) := by
    simp only [normalize_output, hw, pySlice, e1, hn, e2, hs, hpad1, hpad2, hpad3]
  rw [hcomp]
  rw [dset_pad_collapse2 hwn hws, dset_pad_collapse hns, dset_dset_same]
  rfl


theorem length_normListP (n : Nat) (filler : String) (xs : List PyVal) :
    (normListP n filler xs).length = n := by
  simp only [normListP, List.length_append, List.length_take, List.length_replicate]
  omega

theorem padField_str (t : String) (n : Nat) (f : String) :
    padField (.str t) n f =
      if t.data.length < n then .error .attributeError else .ok (.str t) := by
  simp [padField, pyLenE]

theorem slice_pad_fix {v w w' : PyVal} {n : Nat} {f : String}
    (h1 : pySlice v n = .ok w) (h2 : padField w n f = .ok w') :
    pySlice w' n = .ok w' ∧ padField w' n f = .ok w' := by
  cases v with
  | list xs =>
    simp only [pySlice, Except.ok.injEq] at h1
    subst h1
    simp only [padField, Except.ok.injEq] at h2
    subst h2
    have hlen : (xs.take n ++ List.replicate (n - (xs.take n).length)
        (PyVal.str f)).length = n := by
      simp only [List.length_append, List.length_take, List.length_replicate]
      omega
    constructor
    · simp only [pySlice, Except.ok.injEq]
      exact congrArg PyVal.list (List.take_of_length_le (le_of_eq hlen))
    · simp only [padField, hlen, Nat.sub_self, List.replicate_zero, List.append_nil]
  | str s =>
    simp only [pySlice, Except.ok.injEq] at h1
    subst h1
    rw [padField_str] at h2
    by_cases hlt : ((String.mk (s.data.take n)).data.length < n)
    · rw [if_pos hlt] at h2
      cases h2
    · rw [if_neg hlt] at h2
      injection h2 with h2
      subst h2
      constructor
      · simp only [pySlice, Except.ok.injEq]
        exact congrArg (fun l => PyVal.str (String.mk l))
          (by rw [List.take_take, Nat.min_self])
      · rw [padField_str, if_neg hlt]
  | num lex => simp [pySlice] at h1
  | bool b => simp [pySlice] at h1
  | null => simp [pySlice] at h1
  | dict kvs => simp [pySlice] at h1

/-- C7: the Normalizer is idempotent: for every input mapping `x` (including
those on which it raises, where the raise propagates), running
`normalize_output` on its own output reproduces that output. -/
theorem C7_normalize_output_idempotent (d : PyDict) :
    (normalize_output d).bind normalize_output = normalize_output d := by
  have hwn : ("what_works" : String) ≠ "what_needs_work" := by decide
  have hws : ("what_works" : String) ≠ "suggestions" := by decide
  have hns : ("what_needs_work" : String) ≠ "suggestions" := by decide
  cases h1 : pySlice ((dget d "what_works").getD (.list [])) 3 with
  | error e => simp [normalize_output, h1, Except.bind]
  | ok ws =>
  cases h2 : pySlice ((dget (dset d "what_works" ws) "what_needs_work").getD (.list [])) 2 with
  | error e => simp [normalize_output, h1, h2, Except.bind]
  | ok nw =>
  cases h3 : pySlice ((dget (dset (dset d "what_works" ws) "what_needs_work" nw)
      "suggestions").getD (.list [])) 2 with
  | error e => simp [normalize_output, h1, h2, h3, Except.bind]
  | ok sg =>
  have g1 : dget (dset (dset (dset d "what_works" ws) "what_needs_work" nw)
      "suggestions" sg) "what_works" = some ws := by
    rw [dget_dset_ne hws.symm, dget_dset_ne hwn.symm, dget_dset]
  cases h4 : padField ws 3 fillerNormWW with
  | error e => simp [normalize_output, h1, h2, h3, padSection, g1, h4, Except.bind]
  | ok w1 =>
  have g2 : dget (dset (dset (dset (dset d "what_works" ws) "what_needs_work" nw)
      "suggestions" sg) "what_works" w1) "what_needs_work" = some nw := by
    rw [dget_dset_ne hwn, dget_dset_ne hns.symm, dget_dset]
  cases h5 : padField nw 2 fillerNW with
  | error e =>
    simp [normalize_output, h1, h2, h3, padSection, g1, h4, g2, h5, Except.bind]
  | ok w2 =>
  have g3 : dget (dset (dset (dset (dset (dset d "what_works" ws) "what_needs_work" nw)
      "suggestions" sg) "what_works" w1) "what_needs_work" w2) "suggestions" = some sg := by
    rw [dget_dset_ne hns, dget_dset_ne hws, dget_dset]
  cases h6 : padField sg 2 fillerSG with
  | error e =>
    simp [normalize_output, h1, h2, h3, padSection, g1, h4, g2, h5, g3, h6, Except.bind]
  | ok w3 =>
  have hrun : normalize_output d = .ok (dset (dset (dset (dset (dset (dset d
      "what_works" ws) "what_needs_work" nw) "suggestions" sg)
      "what_works" w1) "what_needs_work" w2) "suggestions" w3) := by
    simp only [normalize_output, h1, h2, h3, padSection, g1, h4, g2, h5, g3, h6]
  obtain ⟨f1s, f1p⟩ := slice_pad_fix h1 h4
  obtain ⟨f2s, f2p⟩ := slice_pad_fix h2 h5
  obtain ⟨f3s, f3p⟩ := slice_pad_fix h3 h6
  set d6 : PyDict := dset (dset (dset (dset (dset (dset d
      "what_works" ws) "what_needs_work" nw) "suggestions" sg)
      "what_works" w1) "what_needs_work" w2) "suggestions" w3 with hd6
  have q1 : dget d6 "what_works" = some w1 := by
    rw [hd6, dget_dset_ne hws.symm, dget_dset_ne hwn.symm, dget_dset]
  have q2 : dget d6 "what_needs_work" = some w2 := by
    rw [hd6, dget_dset_ne hns.symm, dget_dset]
  have q3 : dget d6 "suggestions" = some w3 := by
    rw [hd6, dget_dset]
  have s1 : dset d6 "what_works" w1 = d6 := dget_dset_self q1
  have s2 : dset d6 "what_needs_work" w2 = d6 := dget_dset_self q2
  have s3 : dset d6 "suggestions" w3 = d6 := dget_dset_self q3
  have hrun2 : normalize_output d6 = .ok d6 := by
    simp only [normalize_output, q1, q2, q3, Option.getD_some, f1s, f2s, f3s,
      s1, s2, s3, padSection, f1p, f2p, f3p]
  rw [hrun]
  simpa [Except.bind] using hrun2

/-! ### Reduction lemmas for the Sanitizer -/

theorem asStrs_map (ss : List String) : asStrs (ss.map .str) = .ok ss := by
  induction ss with
  | nil => rfl
  | cons s t ih => simp [asStrs, ih]

theorem filterOne_spec {r : PyDict} {sec : String} {ss : List String}
    (h : dget r sec = some (.list (ss.map .str))) (p : String → Bool) :
    filterOneSection sec p r = .ok (dset r sec (.list ((ss.filter p).map .str))) := by
  simp [filterOneSection, pyFilterStrs, h, asStrs_map]

theorem dget_setSections_ws {r : PyDict} {a b c : List String} :
    dget (setSections r a b c) "what_works" = some (.list (a.map .str)) := by
  rw [setSections, dget_dset_ne (by decide : ("suggestions" : String) ≠ "what_works"),
    dget_dset_ne (by decide : ("what_needs_work" : String) ≠ "what_works"), dget_dset]

theorem dget_setSections_nw {r : PyDict} {a b c : List String} :
    dget (setSections r a b c) "what_needs_work" = some (.list (b.map .str)) := by
  rw [setSections, dget_dset_ne (by decide : ("suggestions" : String) ≠ "what_needs_work"),
    dget_dset]

theorem dget_setSections_sg {r : PyDict} {a b c : List String} :
    dget (setSections r a b c) "suggestions" = some (.list (c.map .str)) := by
  rw [setSections, dget_dset]

theorem dget_setSections_other {r : PyDict} {a b c : List String} {k : String}
    (h1 : k ≠ "what_works") (h2 : k ≠ "what_needs_work") (h3 : k ≠ "suggestions") :
    dget (setSections r a b c) k = dget r k := by
  rw [setSections, dget_dset_ne h3.symm, dget_dset_ne h2.symm, dget_dset_ne h1.symm]

theorem dset_setSections_ws {r : PyDict} {a b c a' : List String} :
    dset (setSections r a b c) "what_works" (.list (a'.map .str)) = setSections r a' b c :=
  dset_pad_collapse2 (by decide) (by decide)

theorem dset_setSections_nw {r : PyDict} {a b c b' : List String} :
    dset (setSections r a b c) "what_needs_work" (.list (b'.map .str))
      = setSections r a b' c := by
  rw [setSections, dset_pad_collapse (by decide : ("what_needs_work" : String) ≠ "suggestions")]
  rfl

theorem dset_setSections_sg {r : PyDict} {a b c c' : List String} :
    dset (setSections r a b c) "suggestions" (.list (c'.map .str))
      = setSections r a b c' := by
  rw [setSections, dset_dset_same]
  rfl

theorem setSections_setSections {r : PyDict} {a b c a' b' c' : List String} :
    setSections (setSections r a b c) a' b' c' = setSections r a' b' c' := by
  show dset (dset (dset (setSections r a b c) "what_works" (.list (a'.map .str)))
      "what_needs_work" (.list (b'.map .str))) "suggestions" (.list (c'.map .str)) = _
  rw [dset_setSections_ws, dset_setSections_nw, dset_setSections_sg]

theorem setSections_self {r : PyDict} {ws nw sg : List String}
    (hw : strListShaped r "what_works" ws)
    (hn : strListShaped r "what_needs_work" nw)
    (hs : strListShaped r "suggestions" sg) :
    setSections r ws nw sg = r := by
  rw [setSections, dget_dset_self hw, dget_dset_self hn, dget_dset_self hs]

theorem filter_filter_and {α : Type} (p q : α → Bool) (l : List α) :
    (l.filter p).filter q = l.filter (fun a => p a && q a) := by
  induction l with
  | nil => rfl
  | cons a t ih => cases hp : p a <;> cases hq : q a <;> simp [List.filter_cons, hp, hq, ih]

theorem filterSectionsBy_spec {r : PyDict} {ws nw sg : List String}
    (hw : strListShaped r "what_works" ws)
    (hn : strListShaped r "what_needs_work" nw)
    (hs : strListShaped r "suggestions" sg) (p : String → Bool) :
    filterSectionsBy p r = .ok (setSections r (ws.filter p) (nw.filter p) (sg.filter p)) := by
  have s1 := filterOne_spec hw p
  have hn1 : dget (dset r "what_works" (.list ((ws.filter p).map .str)))
      "what_needs_work" = some (.list (nw.map .str)) := by
    rw [dget_dset_ne (by decide : ("what_works" : String) ≠ "what_needs_work")]
    exact hn
  have s2 := filterOne_spec hn1 p
  have hs1 : dget (dset (dset r "what_works" (.list ((ws.filter p).map .str)))
      "what_needs_work" (.list ((nw.filter p).map .str))) "suggestions"
      = some (.list (sg.map .str)) := by
    rw [dget_dset_ne (by decide : ("what_needs_work" : String) ≠ "suggestions"),
      dget_dset_ne (by decide : ("what_works" : String) ≠ "suggestions")]
    exact hs
  have s3 := filterOne_spec hs1 p
  simp only [filterSectionsBy, s1, s2, s3]
  rfl

theorem applyNdFilters_spec (flags : List (String × PyVal)) :
    ∀ (r : PyDict) (ws nw sg : List String),
    strListShaped r "what_works" ws → strListShaped r "what_needs_work" nw →
    strListShaped r "suggestions" sg →
    applyNdFilters flags r = .ok (setSections r (ws.filter (keepAll (ndOf flags)))
      (nw.filter (keepAll (ndOf flags))) (sg.filter (keepAll (ndOf flags)))) := by
  induction flags with
  | nil =>
    intro r ws nw sg hw hn hs
    have hka : ∀ l : List String, l.filter (keepAll (ndOf [])) = l := by
      intro l
      refine List.filter_eq_self.mpr ?_
      intro a _
      simp [ndOf, keepAll]
    simp only [applyNdFilters]
    rw [hka, hka, hka, setSections_self hw hn hs]
  | cons kv rest ih =>
    obtain ⟨k, v⟩ := kv
    intro r ws nw sg hw hn hs
    cases v with
    | str s =>
      by_cases hnd : s = "not_detected"
      · subst hnd
        have hfs := filterSectionsBy_spec hw hn hs (keepNoMention k)
        have hw' : strListShaped (setSections r (ws.filter (keepNoMention k))
            (nw.filter (keepNoMention k)) (sg.filter (keepNoMention k))) "what_works"
            (ws.filter (keepNoMention k)) := dget_setSections_ws
        have hn' : strListShaped (setSections r (ws.filter (keepNoMention k))
            (nw.filter (keepNoMention k)) (sg.filter (keepNoMention k))) "what_needs_work"
            (nw.filter (keepNoMention k)) := dget_setSections_nw
        have hs' : strListShaped (setSections r (ws.filter (keepNoMention k))
            (nw.filter (keepNoMention k)) (sg.filter (keepNoMention k))) "suggestions"
            (sg.filter (keepNoMention k)) := dget_setSections_sg
        have hrest := ih _ _ _ _ hw' hn' hs'
        have hnd1 : ndOf ((k, PyVal.str "not_detected") :: rest) = k :: ndOf rest := by
          simp [ndOf, List.filter_cons, isNdStr]
        have hcomb : ∀ l : List String,
            (l.filter (keepNoMention k)).filter (keepAll (ndOf rest))
              = l.filter (keepAll (k :: ndOf rest)) := by
          intro l
          rw [filter_filter_and]
          rfl
        simp only [applyNdFilters, if_pos (rfl : ("not_detected" : String) = "not_detected"),
          hfs]
        rw [hrest, setSections_setSections, hnd1, hcomb, hcomb, hcomb]
        simp
      · have hnd1 : ndOf ((k, PyVal.str s) :: rest) = ndOf rest := by
          simp [ndOf, List.filter_cons, isNdStr, hnd]
        simp only [applyNdFilters, if_neg hnd]
        rw [hnd1]
        exact ih r ws nw sg hw hn hs
    | num lex =>
      have hnd1 : ndOf ((k, PyVal.num lex) :: rest) = ndOf rest := by
        simp [ndOf, List.filter_cons, isNdStr]
      simp only [applyNdFilters]
      rw [hnd1]
      exact ih r ws nw sg hw hn hs
    | bool b =>
      have hnd1 : ndOf ((k, PyVal.bool b) :: rest) = ndOf rest := by
        simp [ndOf, List.filter_cons, isNdStr]
      simp only [applyNdFilters]
      rw [hnd1]
      exact ih r ws nw sg hw hn hs
    | null =>
      have hnd1 : ndOf ((k, PyVal.null) :: rest) = ndOf rest := by
        simp [ndOf, List.filter_cons, isNdStr]
      simp only [applyNdFilters]
      rw [hnd1]
      exact ih r ws nw sg hw hn hs
    | list xs =>
      have hnd1 : ndOf ((k, PyVal.list xs) :: rest) = ndOf rest := by
        simp [ndOf, List.filter_cons, isNdStr]
      simp only [applyNdFilters]
      rw [hnd1]
      exact ih r ws nw sg hw hn hs
    | dict kvs =>
      have hnd1 : ndOf ((k, PyVal.dict kvs) :: rest) = ndOf rest := by
        simp [ndOf, List.filter_cons, isNdStr]
      simp only [applyNdFilters]
      rw [hnd1]
      exact ih r ws nw sg hw hn hs

theorem truncSection_ws {r : PyDict} {a b c : List String} {n : Nat} :
    truncSection "what_works" n (setSections r a b c)
      = .ok (setSections r (a.take n) b c) := by
  simp only [truncSection, dget_setSections_ws, pySlice]
  rw [← List.map_take, dset_setSections_ws]

theorem truncSection_nw {r : PyDict} {a b c : List String} {n : Nat} :
    truncSection "what_needs_work" n (setSections r a b c)
      = .ok (setSections r a (b.take n) c) := by
  simp only [truncSection, dget_setSections_nw, pySlice]
  rw [← List.map_take, dset_setSections_nw]

theorem truncSection_sg {r : PyDict} {a b c : List String} {n : Nat} :
    truncSection "suggestions" n (setSections r a b c)
      = .ok (setSections r a b (c.take n)) := by
  simp only [truncSection, dget_setSections_sg, pySlice]
  rw [← List.map_take, dset_setSections_sg]

theorem map_str_pad (a : List String) (n : Nat) (f : String) :
    a.map PyVal.str ++ List.replicate (n - (a.map PyVal.str).length) (PyVal.str f)
      = (a ++ List.replicate (n - a.length) f).map PyVal.str := by
  rw [List.map_append, List.map_replicate, List.length_map]

theorem padSection_ws {r : PyDict} {a b c : List String} {n : Nat} {f : String} :
    padSection "what_works" n f (setSections r a b c)
      = .ok (setSections r (a ++ List.replicate (n - a.length) f) b c) := by
  simp only [padSection, dget_setSections_ws, padField]
  rw [map_str_pad, dset_setSections_ws]

theorem padSection_nw {r : PyDict} {a b c : List String} {n : Nat} {f : String} :
    padSection "what_needs_work" n f (setSections r a b c)
      = .ok (setSections r a (b ++ List.replicate (n - b.length) f) c) := by
  simp only [padSection, dget_setSections_nw, padField]
  rw [map_str_pad, dset_setSections_nw]

theorem padSection_sg {r : PyDict} {a b c : List String} {n : Nat} {f : String} :
    padSection "suggestions" n f (setSections r a b c)
      = .ok (setSections r a b (c ++ List.replicate (n - c.length) f)) := by
  simp only [padSection, dget_setSections_sg, padField]
  rw [map_str_pad, dset_setSections_sg]

theorem sanitize_final_spec {r : PyDict} {fs : List (String × PyVal)}
    {ws nw sg : List String}
    (hf : dget r "item_flags" = some (.dict fs))
    (hw : strListShaped r "what_works" ws)
    (hn : strListShaped r "what_needs_work" nw)
    (hs : strListShaped r "suggestions" sg) :
    sanitize_final r = .ok (sanitizeModel r fs ws nw sg) := by
  have hw1 : strListShaped (dset r "item_flags" (.dict (coerceFlags fs))) "what_works" ws := by
    unfold strListShaped at hw ⊢
    rw [dget_dset_ne (by decide : ("item_flags" : String) ≠ "what_works")]
    exact hw
  have hn1 : strListShaped (dset r "item_flags" (.dict (coerceFlags fs)))
      "what_needs_work" nw := by
    unfold strListShaped at hn ⊢
    rw [dget_dset_ne (by decide : ("item_flags" : String) ≠ "what_needs_work")]
    exact hn
  have hs1 : strListShaped (dset r "item_flags" (.dict (coerceFlags fs)))
      "suggestions" sg := by
    unfold strListShaped at hs ⊢
    rw [dget_dset_ne (by decide : ("item_flags" : String) ≠ "suggestions")]
    exact hs
  have hnd := applyNdFilters_spec (coerceFlags fs) _ ws nw sg hw1 hn1 hs1
  have hsent := @filterSectionsBy_spec
      (setSections (dset r "item_flags" (.dict (coerceFlags fs)))
        (ws.filter (keepAll (ndOf (coerceFlags fs))))
        (nw.filter (keepAll (ndOf (coerceFlags fs))))
        (sg.filter (keepAll (ndOf (coerceFlags fs)))))
      (ws.filter (keepAll (ndOf (coerceFlags fs))))
      (nw.filter (keepAll (ndOf (coerceFlags fs))))
      (sg.filter (keepAll (ndOf (coerceFlags fs))))
      dget_setSections_ws dget_setSections_nw dget_setSections_sg is_sentence
  rw [setSections_setSections] at hsent
  simp only [sanitize_final, hf, hnd, hsent, truncSection_ws, truncSection_nw,
    truncSection_sg, padSection_ws, padSection_nw, padSection_sg]
  rfl

/-! ### Success inversion and frame lemmas -/

theorem padSection_ok_inv {sec : String} {n : Nat} {f : String} {r r' : PyDict}
    (h : padSection sec n f r = .ok r') : ∃ v, r' = dset r sec v := by
  unfold padSection at h
  split at h
  · cases h
  · split at h
    · cases h
    · rename_i v' hv'
      injection h with h
      exact ⟨v', h.symm⟩

theorem truncSection_ok_inv {sec : String} {n : Nat} {r r' : PyDict}
    (h : truncSection sec n r = .ok r') : ∃ v, r' = dset r sec v := by
  unfold truncSection at h
  split at h
  · cases h
  · split at h
    · cases h
    · rename_i v' hv'
      injection h with h
      exact ⟨v', h.symm⟩

theorem filterOne_ok_inv {sec : String} {p : String → Bool} {r r' : PyDict}
    (h : filterOneSection sec p r = .ok r') : ∃ v, r' = dset r sec v := by
  unfold filterOneSection at h
  split at h
  · cases h
  · split at h
    · cases h
    · rename_i v' hv'
      injection h with h
      exact ⟨v', h.symm⟩

theorem filterSectionsBy_frame {p : String → Bool} {r r' : PyDict}
    (h : filterSectionsBy p r = .ok r') (k : String)
    (h1 : k ≠ "what_works") (h2 : k ≠ "what_needs_work") (h3 : k ≠ "suggestions") :
    dget r' k = dget r k := by
  unfold filterSectionsBy at h
  split at h
  · cases h
  · rename_i r1 hr1
    split at h
    · cases h
    · rename_i r2 hr2
      obtain ⟨v1, e1⟩ := filterOne_ok_inv hr1
      obtain ⟨v2, e2⟩ := filterOne_ok_inv hr2
      obtain ⟨v3, e3⟩ := filterOne_ok_inv h
      rw [e3, e2, e1, dget_dset_ne h3.symm, dget_dset_ne h2.symm, dget_dset_ne h1.symm]

theorem applyNdFilters_frame {flags : List (String × PyVal)} :
    ∀ {r r' : PyDict}, applyNdFilters flags r = .ok r' → ∀ k, k ≠ "what_works" →
    k ≠ "what_needs_work" → k ≠ "suggestions" → dget r' k = dget r k := by
  induction flags with
  | nil =>
    intro r r' h k h1 h2 h3
    unfold applyNdFilters at h
    injection h with h
    rw [h]
  | cons kv rest ih =>
    intro r r' h k h1 h2 h3
    obtain ⟨ka, v⟩ := kv
    cases v with
    | str s =>
      by_cases hnd : s = "not_detected"
      · subst hnd
        have hstep : applyNdFilters ((ka, PyVal.str "not_detected") :: rest) r
            = match filterSectionsBy (keepNoMention ka) r with
              | .error e => .error e
              | .ok r1 => applyNdFilters rest r1 := rfl
        rw [hstep] at h
        split at h
        · cases h
        · rename_i r1 hr1
          rw [ih h k h1 h2 h3, filterSectionsBy_frame hr1 k h1 h2 h3]
      · have hstep : applyNdFilters ((ka, PyVal.str s) :: rest) r
            = applyNdFilters rest r := by
          simp [applyNdFilters, hnd]
        rw [hstep] at h
        exact ih h k h1 h2 h3
    | num lex => exact ih h k h1 h2 h3
    | bool b => exact ih h k h1 h2 h3
    | null => exact ih h k h1 h2 h3
    | list xs => exact ih h k h1 h2 h3
    | dict kvs => exact ih h k h1 h2 h3

theorem normalize_output_frame {d d' : PyDict} (h : normalize_output d = .ok d') :
    ∀ k, k ≠ "what_works" → k ≠ "what_needs_work" → k ≠ "suggestions" →
    dget d' k = dget d k := by
  intro k h1 h2 h3
  unfold normalize_output at h
  dsimp only at h
  split at h
  · cases h
  · split at h
    · cases h
    · split at h
      · cases h
      · split at h
        · cases h
        · rename_i d4 hd4
          split at h
          · cases h
          · rename_i d5 hd5
            obtain ⟨v4, e4⟩ := padSection_ok_inv hd4
            obtain ⟨v5, e5⟩ := padSection_ok_inv hd5
            obtain ⟨v6, e6⟩ := padSection_ok_inv h
            rw [e6, e5, e4, dget_dset_ne h3.symm, dget_dset_ne h2.symm,
              dget_dset_ne h1.symm, dget_dset_ne h3.symm, dget_dset_ne h2.symm,
              dget_dset_ne h1.symm]

theorem sanitize_final_frame {r r' : PyDict} (h : sanitize_final r = .ok r') :
    (∀ k, k ≠ "what_works" → k ≠ "what_needs_work" → k ≠ "suggestions" →
      k ≠ "item_flags" → dget r' k = dget r k)
    ∧ ∃ fs, dget r "item_flags" = some (.dict fs)
        ∧ dget r' "item_flags" = some (.dict (coerceFlags fs)) := by
  unfold sanitize_final at h
  dsimp only at h
  split at h
  · cases h
  · rename_i fs hfs
    split at h
    · cases h
    · rename_i r2 hr2
      split at h
      · cases h
      · rename_i r3 hr3
        split at h
        · cases h
        · rename_i r4 hr4
          split at h
          · cases h
          · rename_i r5 hr5
            split at h
            · cases h
            · rename_i r6 hr6
              split at h
              · cases h
              · rename_i r7 hr7
                split at h
                · cases h
                · rename_i r8 hr8
                  obtain ⟨v4, e4⟩ := truncSection_ok_inv hr4
                  obtain ⟨v5, e5⟩ := truncSection_ok_inv hr5
                  obtain ⟨v6, e6⟩ := truncSection_ok_inv hr6
                  obtain ⟨v7, e7⟩ := padSection_ok_inv hr7
                  obtain ⟨v8, e8⟩ := padSection_ok_inv hr8
                  obtain ⟨v9, e9⟩ := padSection_ok_inv h
                  constructor
                  · intro k h1 h2 h3 h4
                    rw [e9, e8, e7, dget_dset_ne h3.symm, dget_dset_ne h2.symm,
                      dget_dset_ne h1.symm, e6, e5, e4, dget_dset_ne h3.symm,
                      dget_dset_ne h2.symm, dget_dset_ne h1.symm,
                      filterSectionsBy_frame hr3 k h1 h2 h3,
                      applyNdFilters_frame hr2 k h1 h2 h3, dget_dset_ne h4.symm]
                  · refine ⟨fs, hfs, ?_⟩
                    have hne1 : ("what_works" : String) ≠ "item_flags" := by decide
                    have hne2 : ("what_needs_work" : String) ≠ "item_flags" := by decide
                    have hne3 : ("suggestions" : String) ≠ "item_flags" := by decide
                    rw [e9, e8, e7, dget_dset_ne hne3, dget_dset_ne hne2,
                      dget_dset_ne hne1, e6, e5, e4, dget_dset_ne hne3,
                      dget_dset_ne hne2, dget_dset_ne hne1,
                      filterSectionsBy_frame hr3 _ hne1.symm hne2.symm hne3.symm,
                      applyNdFilters_frame hr2 _ hne1.symm hne2.symm hne3.symm,
                      dget_dset]
  · cases h

/-! ### Helper lemmas about the normal forms -/

theorem entriesOf_eq {r : PyDict} {sec : String} {xs : List PyVal}
    (h : dget r sec = some (.list xs)) : entriesOf r sec = xs := by
  simp [entriesOf, h]

theorem dget_normModel_ws {d : PyDict} {ws nw sg : List PyVal} :
    dget (normModel d ws nw sg) "what_works"
      = some (.list (normListP 3 fillerNormWW ws)) := by
  rw [normModel, dget_dset_ne (by decide : ("suggestions" : String) ≠ "what_works"),
    dget_dset_ne (by decide : ("what_needs_work" : String) ≠ "what_works"), dget_dset]

theorem dget_normModel_nw {d : PyDict} {ws nw sg : List PyVal} :
    dget (normModel d ws nw sg) "what_needs_work"
      = some (.list (normListP 2 fillerNW nw)) := by
  rw [normModel, dget_dset_ne (by decide : ("suggestions" : String) ≠ "what_needs_work"),
    dget_dset]

theorem dget_normModel_sg {d : PyDict} {ws nw sg : List PyVal} :
    dget (normModel d ws nw sg) "suggestions"
      = some (.list (normListP 2 fillerSG sg)) := by
  rw [normModel, dget_dset]

theorem dget_normModel_other {d : PyDict} {ws nw sg : List PyVal} {k : String}
    (h1 : k ≠ "what_works") (h2 : k ≠ "what_needs_work") (h3 : k ≠ "suggestions") :
    dget (normModel d ws nw sg) k = dget d k := by
  rw [normModel, dget_dset_ne h3.symm, dget_dset_ne h2.symm, dget_dset_ne h1.symm]

theorem dget_sanitizeModel_flags {r : PyDict} {fs : List (String × PyVal)}
    {ws nw sg : List String} :
    dget (sanitizeModel r fs ws nw sg) "item_flags"
      = some (.dict (coerceFlags fs)) := by
  rw [sanitizeModel, dget_setSections_other (by decide) (by decide) (by decide), dget_dset]

theorem normListP_of_le {n : Nat} {f : String} {xs : List PyVal} (h : n ≤ xs.length) :
    normListP n f xs = xs.take n := by
  have hl : (xs.take n).length = n := by
    rw [List.length_take]
    omega
  rw [normListP, hl, Nat.sub_self, List.replicate_zero, List.append_nil]

theorem length_sanList (fs : List (String × PyVal)) (n : Nat) (f : String)
    (l : List String) : (sanList fs n f l).length = n := by
  simp only [sanList, List.length_append, List.length_take, List.length_replicate]
  omega

theorem coerceFlag_coerceFlag (v : PyVal) : coerceFlag (coerceFlag v) = coerceFlag v := by
  cases v with
  | str s =>
    by_cases h : s = "visible" <;> simp [coerceFlag, h]
  | num lex => rfl
  | bool b => rfl
  | null => rfl
  | list xs => rfl
  | dict kvs => rfl

theorem coerceFlags_idem (fs : List (String × PyVal)) :
    coerceFlags (coerceFlags fs) = coerceFlags fs := by
  induction fs with
  | nil => rfl
  | cons kv rest ih => simp_all [coerceFlags, coerceFlag_coerceFlag]

theorem coerceFlags_keys (fs : List (String × PyVal)) :
    (coerceFlags fs).map Prod.fst = fs.map Prod.fst := by
  induction fs with
  | nil => rfl
  | cons kv rest ih => simp_all [coerceFlags]

theorem coerceFlag_enum (v : PyVal) :
    coerceFlag v = .str "visible" ∨ coerceFlag v = .str "not_detected" := by
  cases v with
  | str s =>
    by_cases h : s = "visible"
    · left; simp [coerceFlag, h]
    · right; simp [coerceFlag, h]
  | num lex => right; rfl
  | bool b => right; rfl
  | null => right; rfl
  | list xs => right; rfl
  | dict kvs => right; rfl

theorem ndKeys_coerceFlags (fs : List (String × PyVal)) :
    ndKeys (coerceFlags fs) = ndKeys fs := by
  rw [ndKeys, coerceFlags_idem]
  rfl

theorem mem_ndKeys {fs : List (String × PyVal)} {k : String} {v : PyVal}
    (hm : (k, v) ∈ fs) (hnd : coerceFlag v = .str "not_detected") : k ∈ ndKeys fs := by
  unfold ndKeys ndOf
  refine List.mem_map.mpr ⟨(k, coerceFlag v), List.mem_filter.mpr ⟨?_, ?_⟩, rfl⟩
  · exact List.mem_map.mpr ⟨(k, v), hm, rfl⟩
  · rw [hnd]
    rfl

theorem filter_replicate_false {α : Type} {p : α → Bool} {a : α} (h : p a = false)
    (m : Nat) : (List.replicate m a).filter p = [] := by
  induction m with
  | zero => rfl
  | succ m ih => simp [List.replicate_succ, List.filter_cons, h, ih]

theorem mem_sanList {fs : List (String × PyVal)} {n : Nat} {f : String}
    {l : List String} {s : String} (h : s ∈ sanList fs n f l) :
    (keepAll (ndKeys fs) s = true ∧ is_sentence s = true) ∨ s = f := by
  simp only [sanList] at h
  rcases List.mem_append.mp h with h' | h'
  · left
    have h1 := List.mem_of_mem_take h'
    have h2 := List.mem_filter.mp h1
    have h3 := List.mem_filter.mp h2.1
    exact ⟨h3.2, h2.2⟩
  · right
    exact (List.eq_of_mem_replicate h')

theorem sanList_congr {fs fs' : List (String × PyVal)} (h : ndKeys fs' = ndKeys fs)
    (n : Nat) (f : String) (l : List String) : sanList fs' n f l = sanList fs n f l := by
  simp only [sanList, h]

theorem sanList_fix {fs : List (String × PyVal)} {n : Nat} {f : String}
    (hsent : is_sentence f = true) (l : List String) :
    sanList fs n f (sanList fs n f l) = sanList fs n f l := by
  have htmem : ∀ x ∈ ((l.filter (keepAll (ndKeys fs))).filter is_sentence).take n,
      keepAll (ndKeys fs) x = true ∧ is_sentence x = true := by
    intro x hx
    have h1 := List.mem_of_mem_take hx
    have h2 := List.mem_filter.mp h1
    have h3 := List.mem_filter.mp h2.1
    exact ⟨h3.2, h2.2⟩
  have htlen : (((l.filter (keepAll (ndKeys fs))).filter is_sentence).take n).length ≤ n := by
    rw [List.length_take]
    exact Nat.min_le_left _ _
  by_cases hf : keepAll (ndKeys fs) f = true
  · have hall1 : ∀ x ∈ sanList fs n f l, keepAll (ndKeys fs) x = true := by
      intro x hx
      rcases mem_sanList hx with ⟨h1, _⟩ | h1
      · exact h1
      · rw [h1]
        exact hf
    have hall2 : ∀ x ∈ sanList fs n f l, is_sentence x = true := by
      intro x hx
      rcases mem_sanList hx with ⟨_, h1⟩ | h1
      · exact h1
      · rw [h1]
        exact hsent
    have hlen : (sanList fs n f l).length = n := length_sanList fs n f l
    conv =>
      lhs
      rw [sanList]
    rw [List.filter_eq_self.mpr hall1, List.filter_eq_self.mpr hall2,
      List.take_of_length_le (le_of_eq hlen), hlen, Nat.sub_self,
      List.replicate_zero, List.append_nil]
  · have hf' : keepAll (ndKeys fs) f = false := by
      cases hkf : keepAll (ndKeys fs) f
      · rfl
      · exact absurd hkf hf
    conv =>
      lhs
      rw [sanList]
    conv =>
      lhs
      rw [show sanList fs n f l
          = ((l.filter (keepAll (ndKeys fs))).filter is_sentence).take n
            ++ List.replicate
              (n - (((l.filter (keepAll (ndKeys fs))).filter is_sentence).take n).length) f
        from rfl]
    rw [List.filter_append, List.filter_eq_self.mpr (fun x hx => (htmem x hx).1),
      filter_replicate_false hf', List.append_nil,
      List.filter_eq_self.mpr (fun x hx => (htmem x hx).2),
      List.take_of_length_le htlen]
    rfl

theorem dget_sanitizeModel_ws {r : PyDict} {fs : List (String × PyVal)}
    {ws nw sg : List String} :
    dget (sanitizeModel r fs ws nw sg) "what_works"
      = some (.list ((sanList fs 3 fillerSanWW ws).map .str)) := dget_setSections_ws

theorem dget_sanitizeModel_nw {r : PyDict} {fs : List (String × PyVal)}
    {ws nw sg : List String} :
    dget (sanitizeModel r fs ws nw sg) "what_needs_work"
      = some (.list ((sanList fs 2 fillerNW nw).map .str)) := dget_setSections_nw

theorem dget_sanitizeModel_sg {r : PyDict} {fs : List (String × PyVal)}
    {ws nw sg : List String} :
    dget (sanitizeModel r fs ws nw sg) "suggestions"
      = some (.list ((sanList fs 2 fillerSG sg).map .str)) := dget_setSections_sg

/-! ### Claim theorems -/

/-- C2: for every well-shaped input mapping, the report produced by
`normalize_output` has exactly 3 / 2 / 2 entries in its three list fields, and
because `sanitize_final` re-applies truncation and padding as its last step,
its output also has exactly these lengths, however many entries its filters
removed. -/
theorem C2_exact_list_lengths :
    (∀ (d : PyDict) (ws nw sg : List PyVal),
      (dget d "what_works").getD (.list []) = .list ws →
      (dget d "what_needs_work").getD (.list []) = .list nw →
      (dget d "suggestions").getD (.list []) = .list sg →
      normalize_output d = .ok (normModel d ws nw sg)
      ∧ (entriesOf (normModel d ws nw sg) "what_works").length = 3
      ∧ (entriesOf (normModel d ws nw sg) "what_needs_work").length = 2
      ∧ (entriesOf (normModel d ws nw sg) "suggestions").length = 2)
    ∧ (∀ (r : PyDict) (fs : List (String × PyVal)) (ws nw sg : List String),
      dget r "item_flags" = some (.dict fs) →
      strListShaped r "what_works" ws → strListShaped r "what_needs_work" nw →
      strListShaped r "suggestions" sg →
      sanitize_final r = .ok (sanitizeModel r fs ws nw sg)
      ∧ (entriesOf (sanitizeModel r fs ws nw sg) "what_works").length = 3
      ∧ (entriesOf (sanitizeModel r fs ws nw sg) "what_needs_work").length = 2
      ∧ (entriesOf (sanitizeModel r fs ws nw sg) "suggestions").length = 2) := by
  constructor
  · intro d ws nw sg hw hn hs
    refine ⟨normalize_output_spec hw hn hs, ?_, ?_, ?_⟩
    · rw [entriesOf_eq dget_normModel_ws, length_normListP]
    · rw [entriesOf_eq dget_normModel_nw, length_normListP]
    · rw [entriesOf_eq dget_normModel_sg, length_normListP]
  · intro r fs ws nw sg hf hw hn hs
    refine ⟨sanitize_final_spec hf hw hn hs, ?_, ?_, ?_⟩
    · rw [entriesOf_eq dget_sanitizeModel_ws, List.length_map, length_sanList]
    · rw [entriesOf_eq dget_sanitizeModel_nw, List.length_map, length_sanList]
    · rw [entriesOf_eq dget_sanitizeModel_sg, List.length_map, length_sanList]

/-- Witness for C2 at the concrete reports `exNormIn` and `exSanIn`. -/
theorem C2_exact_list_lengths_witness :
    normalize_output exNormIn = .ok (normModel exNormIn
      [.str "w one", .str "w two", .str "w three", .str "w four", .str "w five"]
      [.str "n one", .str "n two", .str "n three", .str "n four"]
      [.str "s one", .str "s two", .str "s three"])
    ∧ (entriesOf (normModel exNormIn
      [.str "w one", .str "w two", .str "w three", .str "w four", .str "w five"]
      [.str "n one", .str "n two", .str "n three", .str "n four"]
      [.str "s one", .str "s two", .str "s three"]) "what_works").length = 3
    ∧ sanitize_final exSanIn = .ok (sanitizeModel exSanIn
      [("dress", .str "not_detected"), ("top", .str "visible"), ("bottom", .str "maybe"),
       ("shoes", .str "no"), ("bag", .str "not_detected"), ("accessories", .str "not_detected")]
      ["The Shoes match the jacket well", "The blue top fits quite well", "short"]
      ["The shoes look slightly worn out"]
      ["Try brighter shoes with this outfit", "Roll the sleeves up a little more"]) := by
  refine ⟨?_, ?_, ?_⟩
  · exact (C2_exact_list_lengths.1 exNormIn _ _ _ rfl rfl rfl).1
  · exact (C2_exact_list_lengths.1 exNormIn _ _ _ rfl rfl rfl).2.1
  · exact (C2_exact_list_lengths.2 exSanIn
      [("dress", .str "not_detected"), ("top", .str "visible"), ("bottom", .str "maybe"),
       ("shoes", .str "no"), ("bag", .str "not_detected"), ("accessories", .str "not_detected")]
      ["The Shoes match the jacket well", "The blue top fits quite well", "short"]
      ["The shoes look slightly worn out"]
      ["Try brighter shoes with this outfit", "Roll the sleeves up a little more"]
      rfl rfl rfl rfl).1

theorem normalize_output_field_inv {d d' : PyDict} (h : normalize_output d = .ok d') :
    (∀ ws, dget d "what_works" = some (.list ws) →
      dget d' "what_works" = some (.list (normListP 3 fillerNormWW ws)))
    ∧ (∀ nw, dget d "what_needs_work" = some (.list nw) →
      dget d' "what_needs_work" = some (.list (normListP 2 fillerNW nw)))
    ∧ (∀ sg, dget d "suggestions" = some (.list sg) →
      dget d' "suggestions" = some (.list (normListP 2 fillerSG sg))) := by
  have hwn : ("what_works" : String) ≠ "what_needs_work" := by decide
  have hws : ("what_works" : String) ≠ "suggestions" := by decide
  have hns : ("what_needs_work" : String) ≠ "suggestions" := by decide
  unfold normalize_output at h
  dsimp only at h
  split at h
  · cases h
  · rename_i ws0 heq1
    split at h
    · cases h
    · rename_i nw0 heq2
      split at h
      · cases h
      · rename_i sg0 heq3
        split at h
        · cases h
        · rename_i d4 hd4
          split at h
          · cases h
          · rename_i d5 hd5
            refine ⟨?_, ?_, ?_⟩
            · intro ws hw
              rw [hw] at heq1
              simp only [Option.getD_some, pySlice, Except.ok.injEq] at heq1
              subst heq1
              have g : dget (dset (dset (dset d "what_works" (PyVal.list (ws.take 3)))
                  "what_needs_work" nw0) "suggestions" sg0) "what_works"
                  = some (PyVal.list (ws.take 3)) := by
                rw [dget_dset_ne hws.symm, dget_dset_ne hwn.symm, dget_dset]
              rw [padSection_list g] at hd4
              injection hd4 with hd4
              subst hd4
              obtain ⟨v5, e5⟩ := padSection_ok_inv hd5
              subst e5
              obtain ⟨v6, e6⟩ := padSection_ok_inv h
              subst e6
              rw [dget_dset_ne hws.symm, dget_dset_ne hwn.symm, dget_dset]
              rfl
            · intro nw hn
              rw [dget_dset_ne hwn, hn] at heq2
              simp only [Option.getD_some, pySlice, Except.ok.injEq] at heq2
              subst heq2
              obtain ⟨v4, e4⟩ := padSection_ok_inv hd4
              subst e4
              have g : dget (dset (dset (dset (dset d "what_works" ws0)
                  "what_needs_work" (PyVal.list (nw.take 2))) "suggestions" sg0)
                  "what_works" v4) "what_needs_work"
                  = some (PyVal.list (nw.take 2)) := by
                rw [dget_dset_ne hwn, dget_dset_ne hns.symm, dget_dset]
              rw [padSection_list g] at hd5
              injection hd5 with hd5
              subst hd5
              obtain ⟨v6, e6⟩ := padSection_ok_inv h
              subst e6
              rw [dget_dset_ne hns.symm, dget_dset]
              rfl
            · intro sg hs
              rw [dget_dset_ne hns, dget_dset_ne hws, hs] at heq3
              simp only [Option.getD_some, pySlice, Except.ok.injEq] at heq3
              subst heq3
              obtain ⟨v4, e4⟩ := padSection_ok_inv hd4
              subst e4
              obtain ⟨v5, e5⟩ := padSection_ok_inv hd5
              subst e5
              have g : dget (dset (dset (dset (dset (dset d "what_works" ws0)
                  "what_needs_work" nw0) "suggestions" (PyVal.list (sg.take 2)))
                  "what_works" v4) "what_needs_work" v5) "suggestions"
                  = some (PyVal.list (sg.take 2)) := by
                rw [dget_dset_ne hns, dget_dset_ne hws, dget_dset]
              rw [padSection_list g] at h
              injection h with h
              subst h
              rw [dget_dset]
              rfl

/-- C8: whenever a run of `normalize_output` succeeds and one of the three
list fields of its input holds more entries than that field's target length,
the output binds that field to exactly the first N input entries in their
original order — a prefix of the input list — independently of the shape of
the other fields; in particular a 5-entry `what_works` becomes its first 3
entries. -/
theorem C8_truncation_keeps_first_entries :
    (∀ (d d' : PyDict) (ws : List PyVal), normalize_output d = .ok d' →
      dget d "what_works" = some (.list ws) → 3 < ws.length →
      dget d' "what_works" = some (.list (ws.take 3)) ∧ ∃ t, ws = ws.take 3 ++ t)
    ∧ (∀ (d d' : PyDict) (nw : List PyVal), normalize_output d = .ok d' →
      dget d "what_needs_work" = some (.list nw) → 2 < nw.length →
      dget d' "what_needs_work" = some (.list (nw.take 2)) ∧ ∃ t, nw = nw.take 2 ++ t)
    ∧ (∀ (d d' : PyDict) (sg : List PyVal), normalize_output d = .ok d' →
      dget d "suggestions" = some (.list sg) → 2 < sg.length →
      dget d' "suggestions" = some (.list (sg.take 2)) ∧ ∃ t, sg = sg.take 2 ++ t) := by
  refine ⟨?_, ?_, ?_⟩
  · intro d d' ws h hw hl
    have hfield := (normalize_output_field_inv h).1 ws hw
    rw [normListP_of_le (le_of_lt hl)] at hfield
    exact ⟨hfield, ws.drop 3, (List.take_append_drop 3 ws).symm⟩
  · intro d d' nw h hn hl
    have hfield := (normalize_output_field_inv h).2.1 nw hn
    rw [normListP_of_le (le_of_lt hl)] at hfield
    exact ⟨hfield, nw.drop 2, (List.take_append_drop 2 nw).symm⟩
  · intro d d' sg h hs hl
    have hfield := (normalize_output_field_inv h).2.2 sg hs
    rw [normListP_of_le (le_of_lt hl)] at hfield
    exact ⟨hfield, sg.drop 2, (List.take_append_drop 2 sg).symm⟩

/-- Witness for C8: in `exNormMixed` only `what_works` is over-length (5
entries) while `what_needs_work` is short and `suggestions` is entirely
absent; the 5-entry `what_works` still becomes exactly its first 3 entries. -/
theorem C8_truncation_keeps_first_entries_witness :
    dget [("what_works", PyVal.list [.str "w one", .str "w two", .str "w three"]),
          ("what_needs_work", PyVal.list [.str "n one", .str fillerNW]),
          ("suggestions", PyVal.list [.str fillerSG, .str fillerSG])] "what_works"
      = some (.list [.str "w one", .str "w two", .str "w three"]) := by
  exact (C8_truncation_keeps_first_entries.1 exNormMixed
    [("what_works", PyVal.list [.str "w one", .str "w two", .str "w three"]),
     ("what_needs_work", PyVal.list [.str "n one", .str fillerNW]),
     ("suggestions", PyVal.list [.str fillerSG, .str fillerSG])]
    [.str "w one", .str "w two", .str "w three", .str "w four", .str "w five"]
    rfl rfl (by decide)).1

/-- C10: `normalize_output` changes only the three list fields — every other
key keeps exactly its input binding; `sanitize_final` additionally changes
only the values inside `item_flags`, leaving every other key (in particular
`overall_vibe`) and the `item_flags` key set unchanged. -/
theorem C10_frame_conditions :
    (∀ (d d' : PyDict), normalize_output d = .ok d' → ∀ k, k ≠ "what_works" →
      k ≠ "what_needs_work" → k ≠ "suggestions" → dget d' k = dget d k)
    ∧ (∀ (r r' : PyDict), sanitize_final r = .ok r' →
      (∀ k, k ≠ "what_works" → k ≠ "what_needs_work" → k ≠ "suggestions" →
        k ≠ "item_flags" → dget r' k = dget r k)
      ∧ ∃ fs, dget r "item_flags" = some (.dict fs)
          ∧ dget r' "item_flags" = some (.dict (coerceFlags fs))
          ∧ (coerceFlags fs).map Prod.fst = fs.map Prod.fst) := by
  constructor
  · exact fun d d' h => normalize_output_frame h
  · intro r r' h
    obtain ⟨hfr, fs, h1, h2⟩ := sanitize_final_frame h
    exact ⟨hfr, fs, h1, h2, coerceFlags_keys fs⟩

/-- Witness for C10 at `exNormIn` and `exSanIn`, with `overall_vibe` as the
untouched key. -/
theorem C10_frame_conditions_witness :
    dget (normModel exNormIn
      [.str "w one", .str "w two", .str "w three", .str "w four", .str "w five"]
      [.str "n one", .str "n two", .str "n three", .str "n four"]
      [.str "s one", .str "s two", .str "s three"]) "overall_vibe"
      = dget exNormIn "overall_vibe"
    ∧ dget (sanitizeModel exSanIn
      [("dress", .str "not_detected"), ("top", .str "visible"), ("bottom", .str "maybe"),
       ("shoes", .str "no"), ("bag", .str "not_detected"), ("accessories", .str "not_detected")]
      ["The Shoes match the jacket well", "The blue top fits quite well", "short"]
      ["The shoes look slightly worn out"]
      ["Try brighter shoes with this outfit", "Roll the sleeves up a little more"])
      "overall_vibe" = dget exSanIn "overall_vibe" := by
  constructor
  · exact C10_frame_conditions.1 exNormIn _
      (normalize_output_spec rfl rfl rfl) "overall_vibe"
      (by decide) (by decide) (by decide)
  · exact (C10_frame_conditions.2 exSanIn _
      (@sanitize_final_spec exSanIn
        [("dress", .str "not_detected"), ("top", .str "visible"), ("bottom", .str "maybe"),
         ("shoes", .str "no"), ("bag", .str "not_detected"), ("accessories", .str "not_detected")]
        ["The Shoes match the jacket well", "The blue top fits quite well", "short"]
        ["The shoes look slightly worn out"]
        ["Try brighter shoes with this outfit", "Roll the sleeves up a little more"]
        rfl rfl rfl rfl)).1 "overall_vibe"
      (by decide) (by decide) (by decide) (by decide)

/-- C4 (amended): neither stage raises a `MissingRequiredField` error.
`normalize_output` succeeds when `overall_vibe` or `item_flags` is entirely
absent, leaving the absent keys absent; `sanitize_final` raises a plain
`KeyError` when `item_flags` is absent, and silently returns a report still
lacking `overall_vibe` when only that key is absent. -/
theorem C4_missing_required_fields_amended :
    (∀ (d : PyDict) (ws nw sg : List PyVal),
      (dget d "what_works").getD (.list []) = .list ws →
      (dget d "what_needs_work").getD (.list []) = .list nw →
      (dget d "suggestions").getD (.list []) = .list sg →
      normalize_output d = .ok (normModel d ws nw sg)
      ∧ dget (normModel d ws nw sg) "overall_vibe" = dget d "overall_vibe"
      ∧ dget (normModel d ws nw sg) "item_flags" = dget d "item_flags")
    ∧ (∀ r : PyDict, dget r "item_flags" = none → sanitize_final r = .error .keyError)
    ∧ (∀ (r : PyDict) (fs : List (String × PyVal)) (ws nw sg : List String),
      dget r "item_flags" = some (.dict fs) → strListShaped r "what_works" ws →
      strListShaped r "what_needs_work" nw → strListShaped r "suggestions" sg →
      dget r "overall_vibe" = none →
      sanitize_final r = .ok (sanitizeModel r fs ws nw sg)
      ∧ dget (sanitizeModel r fs ws nw sg) "overall_vibe" = none) := by
  refine ⟨?_, ?_, ?_⟩
  · intro d ws nw sg hw hn hs
    exact ⟨normalize_output_spec hw hn hs,
      dget_normModel_other (by decide) (by decide) (by decide),
      dget_normModel_other (by decide) (by decide) (by decide)⟩
  · intro r h
    simp [sanitize_final, h]
  · intro r fs ws nw sg hf hw hn hs hv
    refine ⟨sanitize_final_spec hf hw hn hs, ?_⟩
    rw [sanitizeModel, dget_setSections_other (by decide) (by decide) (by decide),
      dget_dset_ne (by decide : ("item_flags" : String) ≠ "overall_vibe"), hv]

/-- Witness for C4: the empty report, and `exNoVibe` which lacks only
`overall_vibe`. -/
theorem C4_missing_required_fields_amended_witness :
    sanitize_final [] = .error .keyError
    ∧ sanitize_final exNoVibe = .ok (sanitizeModel exNoVibe
        [("top", .str "visible")] ["The blue top fits quite well"] [] [])
    ∧ dget (sanitizeModel exNoVibe [("top", .str "visible")]
        ["The blue top fits quite well"] [] []) "overall_vibe" = none := by
  have h3 := C4_missing_required_fields_amended.2.2 exNoVibe
    [("top", .str "visible")] ["The blue top fits quite well"] [] []
    rfl rfl rfl rfl rfl
  exact ⟨C4_missing_required_fields_amended.2.1 [] rfl, h3.1, h3.2⟩

/-- Counterexample for C4 as stated: on the empty mapping — which lacks both
`overall_vibe` and `item_flags` — the Normalizer does not fail at all; it
returns a padded report in which both keys are still absent. -/
theorem C4_counterexample :
    normalize_output [] = .ok
      [("what_works", .list [.str fillerNormWW, .str fillerNormWW, .str fillerNormWW]),
       ("what_needs_work", .list [.str fillerNW, .str fillerNW]),
       ("suggestions", .list [.str fillerSG, .str fillerSG])]
    ∧ dget [("what_works", .list [.str fillerNormWW, .str fillerNormWW, .str fillerNormWW]),
       ("what_needs_work", .list [.str fillerNW, .str fillerNW]),
       ("suggestions", .list [.str fillerSG, .str fillerSG])] "overall_vibe" = none
    ∧ dget [("what_works", .list [.str fillerNormWW, .str fillerNormWW, .str fillerNormWW]),
       ("what_needs_work", .list [.str fillerNW, .str fillerNW]),
       ("suggestions", .list [.str fillerSG, .str fillerSG])] "item_flags" = none := by
  exact ⟨rfl, rfl, rfl⟩

/-- C3 (amended): `normalize_output` leaves `item_flags` entirely untouched;
`sanitize_final` coerces the values of the keys that are present (anything
other than `"visible"` becomes `"not_detected"`), preserving the key set
exactly — absent schema keys are not added. -/
theorem C3_flag_coercion_amended :
    (∀ (d d' : PyDict), normalize_output d = .ok d' →
      dget d' "item_flags" = dget d "item_flags")
    ∧ (∀ (r : PyDict) (fs : List (String × PyVal)) (ws nw sg : List String),
      dget r "item_flags" = some (.dict fs) → strListShaped r "what_works" ws →
      strListShaped r "what_needs_work" nw → strListShaped r "suggestions" sg →
      sanitize_final r = .ok (sanitizeModel r fs ws nw sg)
      ∧ dget (sanitizeModel r fs ws nw sg) "item_flags" = some (.dict (coerceFlags fs))
      ∧ (coerceFlags fs).map Prod.fst = fs.map Prod.fst
      ∧ ∀ kv ∈ coerceFlags fs, kv.2 = .str "visible" ∨ kv.2 = .str "not_detected") := by
  constructor
  · exact fun d d' h =>
      normalize_output_frame h "item_flags" (by decide) (by decide) (by decide)
  · intro r fs ws nw sg hf hw hn hs
    refine ⟨sanitize_final_spec hf hw hn hs, dget_sanitizeModel_flags,
      coerceFlags_keys fs, ?_⟩
    intro kv hkv
    obtain ⟨kv0, _, hkv0⟩ := List.mem_map.mp hkv
    rw [← hkv0]
    exact coerceFlag_enum kv0.2

/-- Witness for C3 (amended) at `exSanIn`. -/
theorem C3_flag_coercion_amended_witness :
    dget (sanitizeModel exSanIn
      [("dress", .str "not_detected"), ("top", .str "visible"), ("bottom", .str "maybe"),
       ("shoes", .str "no"), ("bag", .str "not_detected"), ("accessories", .str "not_detected")]
      ["The Shoes match the jacket well", "The blue top fits quite well", "short"]
      ["The shoes look slightly worn out"]
      ["Try brighter shoes with this outfit", "Roll the sleeves up a little more"])
      "item_flags" = some (.dict (coerceFlags
      [("dress", .str "not_detected"), ("top", .str "visible"), ("bottom", .str "maybe"),
       ("shoes", .str "no"), ("bag", .str "not_detected"), ("accessories", .str "not_detected")])) := by
  exact (C3_flag_coercion_amended.2 exSanIn
    [("dress", .str "not_detected"), ("top", .str "visible"), ("bottom", .str "maybe"),
     ("shoes", .str "no"), ("bag", .str "not_detected"), ("accessories", .str "not_detected")]
    ["The Shoes match the jacket well", "The blue top fits quite well", "short"]
    ["The shoes look slightly worn out"]
    ["Try brighter shoes with this outfit", "Roll the sleeves up a little more"]
    rfl rfl rfl rfl).2.1

/-- Counterexample for C3 as stated: a report whose `item_flags` holds only
the key `top` is sanitized to a report whose `item_flags` still holds only
`top` — the five absent schema keys are not added, so the output does not
contain "exactly the six keys". -/
theorem C3_counterexample :
    sanitize_final exMissingFlags = .ok
      [("item_flags", .dict [("top", .str "visible")]),
       ("what_works", .list [.str fillerSanWW, .str fillerSanWW, .str fillerSanWW]),
       ("what_needs_work", .list [.str fillerNW, .str fillerNW]),
       ("suggestions", .list [.str fillerSG, .str fillerSG])]
    ∧ dget [("top", PyVal.str "visible")] "bag" = none := by
  exact ⟨rfl, rfl⟩

theorem sixKeys_lower : ∀ k ∈ sixKeys, lowerStr k = k := by decide

theorem fillers_sixKeys_free : ∀ k ∈ sixKeys, containsCI k fillerSanWW = false
    ∧ containsCI k fillerNW = false ∧ containsCI k fillerSG = false := by decide

/-- C5: for a report whose flag keys come from the fixed schema key set, every
item key coerced to `not_detected` is absent — as a case-insensitive
substring — from every string of every list field of the sanitized output,
fillers included. -/
theorem C5_not_detected_never_mentioned {r : PyDict} {fs : List (String × PyVal)}
    {ws nw sg : List String} {k : String} {v : PyVal}
    (hf : dget r "item_flags" = some (.dict fs))
    (hw : strListShaped r "what_works" ws)
    (hn : strListShaped r "what_needs_work" nw)
    (hs : strListShaped r "suggestions" sg)
    (hsix : ∀ kv ∈ fs, kv.1 ∈ sixKeys)
    (hkv : (k, v) ∈ fs) (hnd : coerceFlag v = .str "not_detected") :
    sanitize_final r = .ok (sanitizeModel r fs ws nw sg)
    ∧ ∀ s : String, PyVal.str s ∈ allListEntries (sanitizeModel r fs ws nw sg) →
        containsCI k s = false := by
  refine ⟨sanitize_final_spec hf hw hn hs, ?_⟩
  intro s hmem
  have hkkeys : k ∈ sixKeys := hsix (k, v) hkv
  have hklower : lowerStr k = k := sixKeys_lower k hkkeys
  have hknd : k ∈ ndKeys fs := mem_ndKeys hkv hnd
  have hsurvivor : ∀ {t : String}, keepAll (ndKeys fs) t = true → containsCI k t = false := by
    intro t hkeep
    have hone : keepNoMention k t = true := List.all_eq_true.mp hkeep k hknd
    rw [keepNoMention] at hone
    rw [containsCI, hklower]
    cases hin : strIn k (lowerStr t)
    · rfl
    · rw [hin] at hone
      cases hone
  have hfillers := fillers_sixKeys_free k hkkeys
  have hsan : s ∈ sanList fs 3 fillerSanWW ws ∨ s ∈ sanList fs 2 fillerNW nw
      ∨ s ∈ sanList fs 2 fillerSG sg := by
    unfold allListEntries at hmem
    rw [entriesOf_eq dget_sanitizeModel_ws, entriesOf_eq dget_sanitizeModel_nw,
      entriesOf_eq dget_sanitizeModel_sg] at hmem
    rcases List.mem_append.mp hmem with h1 | h1
    · rcases List.mem_append.mp h1 with h2 | h2
      · left
        obtain ⟨x, hx, hxe⟩ := List.mem_map.mp h2
        injection hxe with hxe
        rw [← hxe]
        exact hx
      · right; left
        obtain ⟨x, hx, hxe⟩ := List.mem_map.mp h2
        injection hxe with hxe
        rw [← hxe]
        exact hx
    · right; right
      obtain ⟨x, hx, hxe⟩ := List.mem_map.mp h1
      injection hxe with hxe
      rw [← hxe]
      exact hx
  rcases hsan with h | h | h
  · rcases mem_sanList h with ⟨hkeep, _⟩ | hfil
    · exact hsurvivor hkeep
    · rw [hfil]
      exact hfillers.1
  · rcases mem_sanList h with ⟨hkeep, _⟩ | hfil
    · exact hsurvivor hkeep
    · rw [hfil]
      exact hfillers.2.1
  · rcases mem_sanList h with ⟨hkeep, _⟩ | hfil
    · exact hsurvivor hkeep
    · rw [hfil]
      exact hfillers.2.2

/-- Witness for C5 at `exSanIn` with the not-detected key `shoes`. -/
theorem C5_not_detected_never_mentioned_witness :
    sanitize_final exSanIn = .ok (sanitizeModel exSanIn
      [("dress", .str "not_detected"), ("top", .str "visible"), ("bottom", .str "maybe"),
       ("shoes", .str "no"), ("bag", .str "not_detected"), ("accessories", .str "not_detected")]
      ["The Shoes match the jacket well", "The blue top fits quite well", "short"]
      ["The shoes look slightly worn out"]
      ["Try brighter shoes with this outfit", "Roll the sleeves up a little more"])
    ∧ containsCI "shoes" "The blue top fits quite well" = false := by
  have h := @C5_not_detected_never_mentioned exSanIn
    [("dress", .str "not_detected"), ("top", .str "visible"), ("bottom", .str "maybe"),
     ("shoes", .str "no"), ("bag", .str "not_detected"), ("accessories", .str "not_detected")]
    ["The Shoes match the jacket well", "The blue top fits quite well", "short"]
    ["The shoes look slightly worn out"]
    ["Try brighter shoes with this outfit", "Roll the sleeves up a little more"]
    "shoes" (.str "no") rfl rfl rfl rfl (by decide)
    (List.Mem.tail _ (List.Mem.tail _ (List.Mem.tail _ (List.Mem.head _)))) rfl
  exact ⟨h.1, h.2 "The blue top fits quite well"
    (List.mem_append.mpr (Or.inl (List.mem_append.mpr (Or.inl
      (List.Mem.head _)))))⟩

/-- C9: the strict sanitizer is idempotent on reports containing the required
keys; in particular each filler sentence has at least 4 whitespace-separated
tokens (`is_sentence`) and mentions no schema item key even ignoring case, so
a second pass leaves a sanitized report unchanged. -/
theorem C9_sanitizer_idempotent :
    (is_sentence fillerSanWW = true ∧ is_sentence fillerNW = true
      ∧ is_sentence fillerSG = true
      ∧ ∀ k ∈ sixKeys, containsCI k fillerSanWW = false
          ∧ containsCI k fillerNW = false ∧ containsCI k fillerSG = false)
    ∧ ∀ (r : PyDict) (fs : List (String × PyVal)) (ws nw sg : List String),
      dget r "item_flags" = some (.dict fs) → strListShaped r "what_works" ws →
      strListShaped r "what_needs_work" nw → strListShaped r "suggestions" sg →
      sanitize_final r = .ok (sanitizeModel r fs ws nw sg)
      ∧ sanitize_final (sanitizeModel r fs ws nw sg)
          = .ok (sanitizeModel r fs ws nw sg) := by
  refine ⟨⟨by decide, by decide, by decide, fillers_sixKeys_free⟩, ?_⟩
  intro r fs ws nw sg hf hw hn hs
  refine ⟨sanitize_final_spec hf hw hn hs, ?_⟩
  have hf2 : dget (sanitizeModel r fs ws nw sg) "item_flags"
      = some (.dict (coerceFlags fs)) := dget_sanitizeModel_flags
  have hw2 : strListShaped (sanitizeModel r fs ws nw sg) "what_works"
      (sanList fs 3 fillerSanWW ws) := dget_sanitizeModel_ws
  have hn2 : strListShaped (sanitizeModel r fs ws nw sg) "what_needs_work"
      (sanList fs 2 fillerNW nw) := dget_sanitizeModel_nw
  have hs2 : strListShaped (sanitizeModel r fs ws nw sg) "suggestions"
      (sanList fs 2 fillerSG sg) := dget_sanitizeModel_sg
  rw [sanitize_final_spec hf2 hw2 hn2 hs2]
  congr 1
  rw [sanitizeModel, coerceFlags_idem, dget_dset_self hf2,
    sanList_congr (ndKeys_coerceFlags fs) 3 fillerSanWW,
    sanList_congr (ndKeys_coerceFlags fs) 2 fillerNW,
    sanList_congr (ndKeys_coerceFlags fs) 2 fillerSG,
    sanList_fix (by decide), sanList_fix (by decide), sanList_fix (by decide)]
  exact setSections_self hw2 hn2 hs2

/-- Witness for C9: a second sanitization pass over the sanitized `exSanIn`
reproduces it exactly. -/
theorem C9_sanitizer_idempotent_witness :
    sanitize_final (sanitizeModel exSanIn
      [("dress", .str "not_detected"), ("top", .str "visible"), ("bottom", .str "maybe"),
       ("shoes", .str "no"), ("bag", .str "not_detected"), ("accessories", .str "not_detected")]
      ["The Shoes match the jacket well", "The blue top fits quite well", "short"]
      ["The shoes look slightly worn out"]
      ["Try brighter shoes with this outfit", "Roll the sleeves up a little more"])
    = .ok (sanitizeModel exSanIn
      [("dress", .str "not_detected"), ("top", .str "visible"), ("bottom", .str "maybe"),
       ("shoes", .str "no"), ("bag", .str "not_detected"), ("accessories", .str "not_detected")]
      ["The Shoes match the jacket well", "The blue top fits quite well", "short"]
      ["The shoes look slightly worn out"]
      ["Try brighter shoes with this outfit", "Roll the sleeves up a little more"]) := by
  exact (C9_sanitizer_idempotent.2 exSanIn
    [("dress", .str "not_detected"), ("top", .str "visible"), ("bottom", .str "maybe"),
     ("shoes", .str "no"), ("bag", .str "not_detected"), ("accessories", .str "not_detected")]
    ["The Shoes match the jacket well", "The blue top fits quite well", "short"]
    ["The shoes look slightly worn out"]
    ["Try brighter shoes with this outfit", "Roll the sleeves up a little more"]
    rfl rfl rfl rfl).2

/-! ### Extractor lemmas -/

theorem firstIdxOf_none_iff {c : Char} {cs : List Char} :
    firstIdxOf c cs = none ↔ c ∉ cs := by
  induction cs with
  | nil => simp [firstIdxOf]
  | cons x xs ih =>
    by_cases hx : x = c
    · subst hx
      simp [firstIdxOf]
    · simp [firstIdxOf, hx, ih]
      exact fun _ hc => hx hc.symm

theorem lastIdxOf_none_iff {c : Char} {cs : List Char} :
    lastIdxOf c cs = none ↔ c ∉ cs := by
  rw [lastIdxOf]
  cases hf : firstIdxOf c cs.reverse with
  | none =>
    simp only [Option.map_none']
    have := firstIdxOf_none_iff.mp hf
    rw [List.mem_reverse] at this
    simp [this]
  | some i =>
    simp only [Option.map_some']
    constructor
    · intro h
      cases h
    · intro h
      have : firstIdxOf c cs.reverse = none := by
        rw [firstIdxOf_none_iff, List.mem_reverse]
        exact h
      rw [this] at hf
      cases hf

theorem drop_of_firstIdxOf {c : Char} {cs : List Char} {i : Nat}
    (h : firstIdxOf c cs = some i) : cs.drop i = c :: cs.drop (i + 1) := by
  induction cs generalizing i with
  | nil => cases h
  | cons x xs ih =>
    by_cases hx : x = c
    · subst hx
      simp [firstIdxOf] at h
      rw [← h]
      rfl
    · simp [firstIdxOf, hx] at h
      obtain ⟨j, hj, hji⟩ := h
      rw [← hji]
      simpa using ih hj

theorem json_loads_nil : json_loads (String.mk []) = none := rfl

theorem json_loads_obj {tail : List Char} {v : PyVal}
    (h : json_loads (String.mk ('\x7b' :: tail)) = some v) :
    ∃ kvs, v = .dict kvs := by
  unfold json_loads at h
  split at h
  · rename_i v' rest heq
    split at h
    · injection h with h
      subst h
      rw [show skipWs (String.mk ('\x7b' :: tail)).data = '\x7b' :: tail from rfl] at heq
      rw [show parseVal (4 * (String.mk ('\x7b' :: tail)).data.length + 8) ('\x7b' :: tail)
          = (match parseObjBody (4 * (String.mk ('\x7b' :: tail)).data.length + 7)
              (skipWs tail) with
            | some (kvs, r) => some (.dict (dedupKeys kvs), r)
            | none => none) from rfl] at heq
      split at heq
      · rename_i kvs r hob
        injection heq with heq1
        injection heq1 with ha hb
        exact ⟨dedupKeys kvs, ha.symm⟩
      · cases heq
    · cases h
  · cases h

theorem extract_span_dict {t : String} {s0 n : Nat} {v : PyVal}
    (hfi : firstIdxOf '\x7b' t.data = some s0)
    (h : json_loads (String.mk ((t.data.drop s0).take n)) = some v) :
    ∃ kvs, v = .dict kvs := by
  have hdrop := drop_of_firstIdxOf hfi
  cases n with
  | zero =>
    rw [List.take_zero, json_loads_nil] at h
    cases h
  | succ m =>
    rw [hdrop, List.take_succ_cons] at h
    exact json_loads_obj h

theorem extract_json_loose_dict {t : String} {v : PyVal}
    (h : extract_json_loose t = some v) : ∃ kvs, v = .dict kvs := by
  unfold extract_json_loose at h
  split at h
  · rename_i s0 e0 hfi hla
    exact extract_span_dict hfi h
  · cases h

theorem extract_json_dict {t : String} {v : PyVal}
    (h : extract_json t = some v) : ∃ kvs, v = .dict kvs := by
  unfold extract_json at h
  split at h
  · cases h
  · rename_i s0 hfi
    exact extract_span_dict hfi h

/-- C1: both extractors return null when the input lacks an opening or a
closing brace; otherwise they return exactly the result of parsing the
substring from the first opening brace through the last closing brace
inclusive (null when that span is not valid JSON); and any non-null result is
an object.  Both functions are total, so no exception escapes. -/
theorem C1_extract_contract (t : String) :
    (('\x7b' ∉ t.data ∨ '\x7d' ∉ t.data) →
      extract_json_loose t = none ∧ extract_json t = none)
    ∧ ('\x7b' ∈ t.data → '\x7d' ∈ t.data →
      extract_json_loose t = json_loads (spanOf t)
      ∧ extract_json t = json_loads (spanOf t))
    ∧ (∀ v, extract_json_loose t = some v → ∃ kvs, v = .dict kvs)
    ∧ (∀ v, extract_json t = some v → ∃ kvs, v = .dict kvs) := by
  refine ⟨?_, ?_, fun v h => extract_json_loose_dict h, fun v h => extract_json_dict h⟩
  · intro hdisj
    rcases hdisj with h | h
    · have hfi : firstIdxOf '\x7b' t.data = none := firstIdxOf_none_iff.mpr h
      exact ⟨by simp [extract_json_loose, hfi], by simp [extract_json, hfi]⟩
    · have hla : lastIdxOf '\x7d' t.data = none := lastIdxOf_none_iff.mpr h
      cases hfi : firstIdxOf '\x7b' t.data with
      | none => exact ⟨by simp [extract_json_loose, hfi], by simp [extract_json, hfi]⟩
      | some s0 =>
        refine ⟨by simp [extract_json_loose, hfi, hla], ?_⟩
        show extract_json t = none
        simp only [extract_json, hfi, hla]
        rw [Nat.zero_sub, List.take_zero, json_loads_nil]
  · intro h1 h2
    have hfi : ∃ s0, firstIdxOf '\x7b' t.data = some s0 := by
      cases hx : firstIdxOf '\x7b' t.data with
      | none => exact absurd h1 (firstIdxOf_none_iff.mp hx)
      | some s0 => exact ⟨s0, rfl⟩
    have hla : ∃ e0, lastIdxOf '\x7d' t.data = some e0 := by
      cases hx : lastIdxOf '\x7d' t.data with
      | none => exact absurd h2 (lastIdxOf_none_iff.mp hx)
      | some e0 => exact ⟨e0, rfl⟩
    obtain ⟨s0, hfs⟩ := hfi
    obtain ⟨e0, hle⟩ := hla
    constructor
    · simp [extract_json_loose, spanOf, hfs, hle]
    · simp [extract_json, spanOf, hfs, hle]

/-- Witness for C1 at a string with surrounding prose and at a brace-free
string. -/
theorem C1_extract_contract_witness :
    extract_json_loose "Result: \x7b\"a\": 1\x7d done"
      = json_loads (spanOf "Result: \x7b\"a\": 1\x7d done")
    ∧ extract_json_loose "no braces here" = none
    ∧ extract_json "no braces here" = none := by
  have h1 := ((C1_extract_contract "Result: \x7b\"a\": 1\x7d done").2.1
    (by decide) (by decide)).1
  have h2 := (C1_extract_contract "no braces here").1 (Or.inl (by decide))
  exact ⟨h1, h2.1, h2.2⟩

/-- C6 (amended): the pipeline aborts and surfaces the raw stage-2 text
exactly when stage-2 extraction yields null or the empty object (Python
truthiness); the raw stage-1 text is passed as the stage-2 input when stage-1
extraction yields null or the empty object, while a nonempty extracted
object is re-serialized with `json_dumps` and passed instead. -/
theorem C6_pipeline_amended (v f : String) :
    ((run_fitcheck v f).2 = .aborted f ↔
      extract_json_loose f = none ∨ extract_json_loose f = some (.dict []))
    ∧ ((extract_json_loose v = none ∨ extract_json_loose v = some (.dict [])) →
        (run_fitcheck v f).1 = v)
    ∧ (∀ kvs, extract_json_loose v = some (.dict kvs) → kvs ≠ [] →
        (run_fitcheck v f).1 = json_dumps (.dict kvs)) := by
  refine ⟨?_, ?_, ?_⟩
  · cases hef : extract_json_loose f with
    | none => simp [run_fitcheck, hef]
    | some w =>
      obtain ⟨kvs, rfl⟩ := extract_json_loose_dict hef
      cases kvs with
      | nil => simp [run_fitcheck, hef, pyTruthy]
      | cons a rest => simp [run_fitcheck, hef, pyTruthy]
  · intro h
    rcases h with h | h
    · simp [run_fitcheck, h]
    · simp [run_fitcheck, h, pyTruthy]
  · intro kvs h hne
    cases kvs with
    | nil => exact absurd rfl hne
    | cons a rest => simp [run_fitcheck, h, pyTruthy]

/-- Witness for C6 (amended): a prose-only stage-1 response is passed through
raw, a JSON stage-1 response is re-serialized, and a prose-only stage-2
response aborts the request. -/
theorem C6_pipeline_amended_witness :
    (run_fitcheck "plain text" "ok \x7b\"a\": 1\x7d").1 = "plain text"
    ∧ (run_fitcheck "pre \x7b\"a\": 1\x7d post" "zzz").1
        = json_dumps (.dict [("a", .num "1")])
    ∧ (run_fitcheck "plain text" "zzz").2 = .aborted "zzz" := by
  refine ⟨?_, ?_, ?_⟩
  · exact (C6_pipeline_amended "plain text" "ok \x7b\"a\": 1\x7d").2.1 (Or.inl rfl)
  · exact (C6_pipeline_amended "pre \x7b\"a\": 1\x7d post" "zzz").2.2
      [("a", .num "1")] rfl (by simp)
  · exact (C6_pipeline_amended "plain text" "zzz").1.mpr (Or.inl rfl)

/-- Counterexample for C6 as stated: on the stage-2 text `x\x7b\x7dy` the
Extractor succeeds — it returns the (empty) parsed object, not null — yet the
pipeline aborts the request, because `if not final_json:` treats the empty
dict as falsy.  So the pipeline does not abort "exactly when the Extractor
returns null". -/
theorem C6_counterexample :
    extract_json_loose "x\x7b\x7dy" = some (.dict [])
    ∧ (run_fitcheck "zz" "x\x7b\x7dy").2 = .aborted "x\x7b\x7dy" := ⟨rfl, rfl⟩

/-- Witness for C7: the Normalizer is idempotent on the concrete report
`exNormIn`. -/
theorem C7_normalize_output_idempotent_witness :
    (normalize_output exNormIn).bind normalize_output = normalize_output exNormIn :=
  C7_normalize_output_idempotent exNormIn
